import Mathlib

/-!
Verification of the carbonation-depth estimator for recycled-aggregate
concrete.  The repository computes a point estimate of carbonation depth
from a 13-field mix-design record via a modified Papadakis-style formula
(base coefficient from the water/binder ratio, multiplicative correction
factors, square-root-of-time law) and wraps it in a z-score confidence
interval driven by a root-sum-of-squares coefficient of variation.  Each
script variant is embedded below in its own namespace, with one Lean
definition per Python local, mirroring the source expressions over ℝ.
-/

noncomputable section

namespace Carbonation

/-- The Mix-Design Input Record: the 13 named scalar fields every variant
extracts from its `input_params` mapping. -/
structure Inputs where
  cement : ℝ
  fly_ash : ℝ
  water : ℝ
  coarse_agg : ℝ
  recycled_agg : ℝ
  water_absorption : ℝ
  fine_agg : ℝ
  superplasticizer : ℝ
  compressive_strength : ℝ
  carbon_concentration : ℝ
  exposure_time : ℝ
  temperature : ℝ
  relative_humidity : ℝ

/-- The documented [min, max] range of each field, from the `feature_stats`
tables (src/carbonation_prediction_app.py lines 46-60 and
src/web_carbonation_app.py lines 28-42, which agree). -/
def ValidInputs (p : Inputs) : Prop :=
  133 ≤ p.cement ∧ p.cement ≤ 500 ∧
  0 ≤ p.fly_ash ∧ p.fly_ash ≤ 225.50 ∧
  46.56 ≤ p.water ∧ p.water ≤ 280 ∧
  0 ≤ p.coarse_agg ∧ p.coarse_agg ≤ 1311 ∧
  0 ≤ p.recycled_agg ∧ p.recycled_agg ≤ 1280 ∧
  0.34 ≤ p.water_absorption ∧ p.water_absorption ≤ 9.90 ∧
  0 ≤ p.fine_agg ∧ p.fine_agg ≤ 998 ∧
  0.40 ≤ p.superplasticizer ∧ p.superplasticizer ≤ 7.31 ∧
  18.00 ≤ p.compressive_strength ∧ p.compressive_strength ≤ 72.60 ∧
  0 ≤ p.carbon_concentration ∧ p.carbon_concentration ≤ 20 ∧
  0 ≤ p.exposure_time ∧ p.exposure_time ≤ 3650 ∧
  0 ≤ p.temperature ∧ p.temperature ≤ 30 ∧
  0 ≤ p.relative_humidity ∧ p.relative_humidity ≤ 78.30

/-- Binder content `cement + fly_ash`: identical line in every variant
(e.g. src/corrected_prediction.py line 60, src/simple_prediction.py
line 63, src/stable_app.py line 82). -/
def binder_content (p : Inputs) : ℝ := p.cement + p.fly_ash

/-- Guarded water/binder ratio
`water / binder_content if binder_content > 0 else 0.5`: identical line in
every variant (src/corrected_prediction.py line 61,
src/simple_prediction.py line 64, src/realistic_uncertainty_model.py
line 29, src/stable_app.py line 83). -/
def w_c_ratio (p : Inputs) : ℝ :=
  if 0 < binder_content p then p.water / binder_content p else 0.5

/-- Total coarse aggregate `coarse_agg + recycled_agg` (identical line in
every variant, e.g. src/corrected_prediction.py line 62). -/
def total_agg (p : Inputs) : ℝ := p.coarse_agg + p.recycled_agg

/-- Guarded replacement ratio
`recycled_agg / total_agg if total_agg > 0 else 0`: identical line in every
variant (src/corrected_prediction.py line 63, src/simple_prediction.py
line 69, src/realistic_uncertainty_model.py line 31, src/stable_app.py
line 85). -/
def ra_ratio (p : Inputs) : ℝ :=
  if 0 < total_agg p then p.recycled_agg / total_agg p else 0

/-- Guarded fly-ash fraction
`fly_ash / binder_content if binder_content > 0 else 0`
(src/corrected_prediction.py line 101, src/realistic_uncertainty_model.py
line 32, src/stable_app.py line 86). -/
def fa_ratio (p : Inputs) : ℝ :=
  if 0 < binder_content p then p.fly_ash / binder_content p else 0

/-- The z-score table and its silent default:
`z_scores = {0.90: 1.645, 0.95: 1.96, 0.99: 2.576}` followed by
`z_scores.get(confidence_level, 1.96)`, an identical pair of lines in every
variant (src/corrected_prediction.py lines 145-146,
src/realistic_uncertainty_model.py lines 140-141, src/stable_app.py
lines 151-152, src/uncertainty_analysis.py lines 127-128). -/
def z_scores (c : ℝ) : ℝ :=
  if c = 0.90 then 1.645 else if c = 0.95 then 1.96 else
  if c = 0.99 then 2.576 else 1.96

namespace corrected_prediction

/-- Lines 49-53: an input CO2 concentration above 1 % is treated as an
accelerated-test concentration and divided by 4; otherwise the factor
is 1.0. -/
def co2_acceleration_factor (p : Inputs) : ℝ :=
  if 1 < p.carbon_concentration then p.carbon_concentration / 4 else 1.0

/-- Lines 72-79: base carbonation coefficient (mm/√year) from the
water/binder ratio. -/
def k_base (w : ℝ) : ℝ :=
  if w ≤ 0.4 then 2.0 else if w ≤ 0.5 then 4.0 else
  if w ≤ 0.6 then 7.0 else 12.0

/-- Line 84: `ra_factor = 1.0 + ra_ratio * 0.3`. -/
def ra_factor (p : Inputs) : ℝ := 1.0 + ra_ratio p * 0.3

/-- Line 87:
`(30 / compressive_strength) ** 0.3 if compressive_strength > 0 else 1.5`. -/
def strength_factor (p : Inputs) : ℝ :=
  if 0 < p.compressive_strength
  then (30 / p.compressive_strength) ^ (0.3 : ℝ) else 1.5

/-- Line 90: `temp_factor = 1.0 + (temperature - 20) * 0.02`. -/
def temp_factor (p : Inputs) : ℝ := 1.0 + (p.temperature - 20) * 0.02

/-- Lines 93-98: humidity factor, 1.0 on the 50-80 % plateau, a dryness
penalty below 50 %, and 0.8 above 80 %. -/
def rh_factor (p : Inputs) : ℝ :=
  if 50 ≤ p.relative_humidity ∧ p.relative_humidity ≤ 80 then 1.0
  else if p.relative_humidity < 50 then 1.2 + (50 - p.relative_humidity) * 0.01
  else 0.8

/-- Line 102: `fa_factor = 1.0 - fa_ratio * 0.4`. -/
def fa_factor (p : Inputs) : ℝ := 1.0 - fa_ratio p * 0.4

/-- Line 110: the product of the base coefficient and all correction
factors, in the source's order. -/
def k_effective (p : Inputs) : ℝ :=
  k_base (w_c_ratio p) * ra_factor p * strength_factor p * temp_factor p *
    rh_factor p * fa_factor p * co2_acceleration_factor p

/-- Line 113: `time_years = exposure_time / 365.25`. -/
def time_years (p : Inputs) : ℝ := p.exposure_time / 365.25

/-- Line 114: `carbonation_depth = k_effective * np.sqrt(time_years)`. -/
def carbonation_depth (p : Inputs) : ℝ :=
  k_effective p * Real.sqrt (time_years p)

/-- Line 123: `cv_base = 0.15`. -/
def cv_base : ℝ := 0.15

/-- Line 126: `cv_material = ra_ratio * 0.05`. -/
def cv_material (p : Inputs) : ℝ := ra_ratio p * 0.05

/-- Line 129:
`cv_environment = abs(temperature - 20) * 0.002 + abs(relative_humidity - 65) * 0.001`. -/
def cv_environment (p : Inputs) : ℝ :=
  |p.temperature - 20| * 0.002 + |p.relative_humidity - 65| * 0.001

/-- Line 132: `cv_time = 0.02 if time_years > 2 else 0.01`. -/
def cv_time (p : Inputs) : ℝ := if 2 < time_years p then 0.02 else 0.01

/-- Line 135: root-sum-of-squares of the four variance contributors. -/
def cv_total (p : Inputs) : ℝ :=
  Real.sqrt (cv_base ^ 2 + cv_material p ^ 2 + cv_environment p ^ 2 +
    cv_time p ^ 2)

/-- Line 148: `margin = z_score * carbonation_depth * cv_total`. -/
def margin (p : Inputs) (confidence_level : ℝ) : ℝ :=
  z_scores confidence_level * carbonation_depth p * cv_total p

/-- The result record returned at lines 175-182 of
src/corrected_prediction.py. -/
structure Result where
  prediction : ℝ
  lower_bound : ℝ
  upper_bound : ℝ
  relative_uncertainty : ℝ
  precision : String
  cv_total : ℝ

/-- Lines 31-182 of src/corrected_prediction.py, composed from the
definitions above: bounds `max(0, d - margin)` and `d + margin`
(lines 149-150), relative uncertainty guarded by `carbonation_depth > 0`
(line 153), precision label thresholds 20 / 35 (lines 162-170). -/
def realistic_carbonation_prediction (p : Inputs) (confidence_level : ℝ) :
    Result :=
  let d := carbonation_depth p
  let m := margin p confidence_level
  let lower_bound := max 0 (d - m)
  let upper_bound := d + m
  let interval_width := upper_bound - lower_bound
  let relative_uncertainty :=
    if 0 < d then interval_width / d * 100 else 100
  { prediction := d
    lower_bound := lower_bound
    upper_bound := upper_bound
    relative_uncertainty := relative_uncertainty
    precision :=
      if relative_uncertainty < 20 then "🟢 高精度"
      else if relative_uncertainty < 35 then "🟡 中等精度"
      else "🔴 低精度"
    cv_total := cv_total p }

end corrected_prediction

namespace realistic_uncertainty_model

/-- Lines 44-53 of src/realistic_uncertainty_model.py: the five-band base
coefficient, with inclusive upper boundaries. -/
def k_base (w : ℝ) : ℝ :=
  if w ≤ 0.3 then 1.5 else if w ≤ 0.4 then 2.5 else if w ≤ 0.5 then 4.0 else
  if w ≤ 0.6 then 6.5 else 10.0

/-- Lines 56-61: piecewise-linear recycled-aggregate correction. -/
def ra_factor (r : ℝ) : ℝ :=
  if r ≤ 0.3 then 1.0 + r * 0.2
  else if r ≤ 0.5 then 1.06 + (r - 0.3) * 0.3
  else 1.12 + (r - 0.5) * 0.4

/-- Lines 64-69: three-tier strength correction (a step function of the
compressive strength). -/
def strength_factor (s : ℝ) : ℝ :=
  if 40 ≤ s then 0.8 else if 30 ≤ s then 1.0 else 1.3

/-- Line 72: `fa_factor = 1.0 - fa_ratio * 0.3`. -/
def fa_factor (p : Inputs) : ℝ := 1.0 - fa_ratio p * 0.3

/-- Line 75: `temp_factor = 1.0 + (temperature - 20) * 0.015`. -/
def temp_factor (p : Inputs) : ℝ := 1.0 + (p.temperature - 20) * 0.015

/-- Lines 77-82: humidity factor with a 60-75 % plateau. -/
def rh_factor (p : Inputs) : ℝ :=
  if 60 ≤ p.relative_humidity ∧ p.relative_humidity ≤ 75 then 1.0
  else if p.relative_humidity < 60 then 1.1 + (60 - p.relative_humidity) * 0.01
  else 0.85

/-- Lines 85-88: square-root CO2 scaling relative to atmospheric 0.04 %,
damped by 0.3 above 1 % (accelerated-test conditions). -/
def co2_factor (p : Inputs) : ℝ :=
  if 1 < p.carbon_concentration
  then Real.sqrt (p.carbon_concentration / 0.04) * 0.3
  else Real.sqrt (p.carbon_concentration / 0.04)

/-- Line 91: the product of all factors in the source's order. -/
def k_effective (p : Inputs) : ℝ :=
  k_base (w_c_ratio p) * ra_factor (ra_ratio p) *
    strength_factor p.compressive_strength * fa_factor p * temp_factor p *
    rh_factor p * co2_factor p

/-- Line 94: `time_years = exposure_time / 365.25`. -/
def time_years (p : Inputs) : ℝ := p.exposure_time / 365.25

/-- Line 95: `carbonation_depth = k_effective * np.sqrt(time_years)`. -/
def carbonation_depth (p : Inputs) : ℝ :=
  k_effective p * Real.sqrt (time_years p)

/-- Lines 110-117: base coefficient of variation, bucketed by mix quality
(water/binder ratio and fly-ash fraction). -/
def cv_base (p : Inputs) : ℝ :=
  if w_c_ratio p ≤ 0.4 ∧ 0.15 ≤ fa_ratio p then 0.08
  else if w_c_ratio p ≤ 0.5 ∧ 0.1 ≤ fa_ratio p then 0.12
  else if w_c_ratio p ≤ 0.6 then 0.18
  else 0.25

/-- Line 120: `cv_ra = ra_ratio * 0.06`. -/
def cv_ra (p : Inputs) : ℝ := ra_ratio p * 0.06

/-- Lines 123-124:
`cv_env = abs(temperature - 20) * 0.003 + abs(relative_humidity - 65) * 0.002`. -/
def cv_env (p : Inputs) : ℝ :=
  |p.temperature - 20| * 0.003 + |p.relative_humidity - 65| * 0.002

/-- Line 127: `cv_time = 0.02 if time_years > 3 else 0.01`. -/
def cv_time (p : Inputs) : ℝ := if 3 < time_years p then 0.02 else 0.01

/-- Line 130: root-sum-of-squares of the four variance contributors. -/
def cv_total (p : Inputs) : ℝ :=
  Real.sqrt (cv_base p ^ 2 + cv_ra p ^ 2 + cv_env p ^ 2 + cv_time p ^ 2)

/-- Line 143: `margin = z_score * carbonation_depth * cv_total`. -/
def margin (p : Inputs) (confidence_level : ℝ) : ℝ :=
  z_scores confidence_level * carbonation_depth p * cv_total p

/-- The result record returned at lines 177-186 of
src/realistic_uncertainty_model.py. -/
structure Result where
  prediction : ℝ
  lower_bound : ℝ
  upper_bound : ℝ
  relative_uncertainty : ℝ
  precision : String
  grade : String
  cv_total : ℝ
  k_effective : ℝ

/-- Lines 10-186 of src/realistic_uncertainty_model.py, composed from the
definitions above: bounds `max(0, d - margin)` and `d + margin`
(lines 144-145), guarded relative uncertainty (line 148), precision label
thresholds 15 / 25 / 40 (lines 157-172). -/
def realistic_uncertainty_prediction (p : Inputs) (confidence_level : ℝ) :
    Result :=
  let d := carbonation_depth p
  let m := margin p confidence_level
  let lower_bound := max 0 (d - m)
  let upper_bound := d + m
  let interval_width := upper_bound - lower_bound
  let relative_uncertainty :=
    if 0 < d then interval_width / d * 100 else 100
  { prediction := d
    lower_bound := lower_bound
    upper_bound := upper_bound
    relative_uncertainty := relative_uncertainty
    precision :=
      if relative_uncertainty < 15 then "🟢 高精度"
      else if relative_uncertainty < 25 then "🟡 中等精度"
      else if relative_uncertainty < 40 then "🟠 一般精度"
      else "🔴 低精度"
    grade :=
      if relative_uncertainty < 15 then "优秀"
      else if relative_uncertainty < 25 then "良好"
      else if relative_uncertainty < 40 then "一般"
      else "较差"
    cv_total := cv_total p
    k_effective := k_effective p }

end realistic_uncertainty_model

namespace simple_prediction

/-- Line 76 of src/simple_prediction.py:
`(w_c_ratio / 0.45) ** 0.8 if w_c_ratio > 0 else 1.0`. -/
def w_c_factor (p : Inputs) : ℝ :=
  if 0 < w_c_ratio p then (w_c_ratio p / 0.45) ^ (0.8 : ℝ) else 1.0

/-- Line 77: `ra_factor = 1.0 + ra_ratio * 0.4`. -/
def ra_factor (p : Inputs) : ℝ := 1.0 + ra_ratio p * 0.4

/-- Line 78:
`(40 / compressive_strength) ** 0.5 if compressive_strength > 0 else 1.2`. -/
def strength_factor (p : Inputs) : ℝ :=
  if 0 < p.compressive_strength
  then (40 / p.compressive_strength) ^ (0.5 : ℝ) else 1.2

/-- Line 79:
`np.exp(0.0693 * (temperature - 20)) if temperature > 0 else 1.0`. -/
def temp_factor (p : Inputs) : ℝ :=
  if 0 < p.temperature then Real.exp (0.0693 * (p.temperature - 20)) else 1.0

/-- Lines 82-85: humidity factor peaking near 65 %. -/
def rh_factor (p : Inputs) : ℝ :=
  if p.relative_humidity < 65 then (100 - p.relative_humidity) / 35
  else 65 / p.relative_humidity

/-- Line 88: `co2_factor = (carbon_concentration / 0.04) ** 0.5`. -/
def co2_factor (p : Inputs) : ℝ :=
  (p.carbon_concentration / 0.04) ^ (0.5 : ℝ)

/-- Line 98: `k_effective = k_base * ...` with `k_base = 5.0` (line 73). -/
def k_effective (p : Inputs) : ℝ :=
  5.0 * w_c_factor p * ra_factor p * strength_factor p * temp_factor p *
    rh_factor p * co2_factor p

/-- Line 101: `time_years = exposure_time / 365.25`. -/
def time_years (p : Inputs) : ℝ := p.exposure_time / 365.25

/-- Line 102: `np.sqrt(time_years) if time_years > 0 else 0`. -/
def time_factor (p : Inputs) : ℝ :=
  if 0 < time_years p then Real.sqrt (time_years p) else 0

/-- Lines 28-119 of src/simple_prediction.py: the returned scalar depth,
`k_effective * time_factor`, multiplied by the fly-ash protection factor
`1.0 - (fly_ash / binder_content) * 0.3` when `fly_ash > 0`
(lines 108-114). -/
def predict_carbonation_depth (p : Inputs) : ℝ :=
  let carbonation_depth := k_effective p * time_factor p
  if 0 < p.fly_ash
  then carbonation_depth * (1.0 - p.fly_ash / binder_content p * 0.3)
  else carbonation_depth

end simple_prediction

namespace uncertainty_analysis

/-- Lines 33-51 of src/uncertainty_analysis.py: the simplified depth
prediction feeding the uncertainty analysis (`k_base = 5.0`; the
water/binder power factor at line 34 is unguarded here). -/
def carbonation_depth_base (p : Inputs) : ℝ :=
  5.0 * (w_c_ratio p / 0.45) ^ (0.8 : ℝ) * (1.0 + ra_ratio p * 0.4) *
    (if 0 < p.compressive_strength
     then (40 / p.compressive_strength) ^ (0.5 : ℝ) else 1.2) *
    Real.exp (0.0693 * (p.temperature - 20)) *
    (if p.relative_humidity < 65 then (100 - p.relative_humidity) / 35
     else 65 / p.relative_humidity) *
    (p.carbon_concentration / 0.04) ^ (0.5 : ℝ) *
    Real.sqrt (p.exposure_time / 365.25)

/-- Lines 53-57: fly-ash protection applied when `fly_ash > 0`. -/
def carbonation_depth (p : Inputs) : ℝ :=
  if 0 < p.fly_ash
  then carbonation_depth_base p * (1.0 - p.fly_ash / binder_content p * 0.3)
  else carbonation_depth_base p

/-- Lines 64-66: material variability, 5 % plus a recycled-aggregate
surcharge when `ra_ratio > 0`. -/
def material_uncertainty (p : Inputs) : ℝ :=
  if 0 < ra_ratio p then 0.05 + ra_ratio p * 0.08 else 0.05

/-- Lines 74-78: model uncertainty, 10 % plus surcharges for a high
water/binder ratio and for low strength. -/
def model_uncertainty (p : Inputs) : ℝ :=
  (if 0.6 < w_c_ratio p then 0.10 + 0.05 else 0.10) +
    (if p.compressive_strength < 25 then 0.03 else 0)

/-- Lines 88-96: environmental uncertainty from temperature and humidity
deviation, plus 2 % for CO2 concentration above 5 %. -/
def env_uncertainty (p : Inputs) : ℝ :=
  0.02 + |p.temperature - 20| * 0.008 + |p.relative_humidity - 65| * 0.003 +
    (if 5 < p.carbon_concentration then 0.02 else 0)

/-- Lines 106-108: time uncertainty, 1 % plus 2 % for exposure beyond 1000
days. -/
def time_uncertainty (p : Inputs) : ℝ :=
  if 1000 < p.exposure_time then 0.01 + 0.02 else 0.01

/-- Lines 116-121: root-sum-of-squares of the four uncertainty
components. -/
def total_uncertainty (p : Inputs) : ℝ :=
  Real.sqrt (material_uncertainty p ^ 2 + model_uncertainty p ^ 2 +
    env_uncertainty p ^ 2 + time_uncertainty p ^ 2)

/-- Line 130: `margin = z_score * carbonation_depth * total_uncertainty`. -/
def margin (p : Inputs) (confidence_level : ℝ) : ℝ :=
  z_scores confidence_level * carbonation_depth p * total_uncertainty p

/-- The result record returned at lines 156-168 of
src/uncertainty_analysis.py (its `components` sub-dict is carried by the
four component definitions above).  The relative uncertainty at line 135
divides by the depth without a guard: in Lean's total division it is 0
when the depth is 0, where Python would raise ZeroDivisionError. -/
structure Result where
  prediction : ℝ
  lower_bound : ℝ
  upper_bound : ℝ
  relative_uncertainty : ℝ
  total_uncertainty : ℝ

/-- Lines 10-168 of src/uncertainty_analysis.py: bounds
`max(0, d - margin)` and `d + margin` (lines 131-132). -/
def calculate_uncertainty_detailed (p : Inputs) (confidence_level : ℝ) :
    Result :=
  let d := carbonation_depth p
  let m := margin p confidence_level
  let lower_bound := max 0 (d - m)
  let upper_bound := d + m
  { prediction := d
    lower_bound := lower_bound
    upper_bound := upper_bound
    relative_uncertainty := (upper_bound - lower_bound) / d * 100
    total_uncertainty := total_uncertainty p }

end uncertainty_analysis

namespace final_corrected_model

/-- Lines 126-141 of src/final_corrected_model.py: the base coefficient of
variation from mix quality (the matching `r2_score` values are 0.92, 0.88,
0.82 and 0.75). -/
def base_cv (p : Inputs) : ℝ :=
  if w_c_ratio p ≤ 0.4 ∧ 0.15 ≤ fa_ratio p then 0.08
  else if w_c_ratio p ≤ 0.5 ∧ 0.10 ≤ fa_ratio p then 0.12
  else if w_c_ratio p ≤ 0.6 then 0.16
  else 0.22

/-- Lines 147-154: the four-band base carbonation coefficient, with
inclusive upper boundaries. -/
def k_base (w : ℝ) : ℝ :=
  if w ≤ 0.4 then 2.5 else if w ≤ 0.5 then 4.0 else
  if w ≤ 0.6 then 6.5 else 10.0

/-- Lines 156-170: correction factors and the effective coefficient. -/
def k_effective (p : Inputs) : ℝ :=
  k_base (w_c_ratio p) * (1.0 + ra_ratio p * 0.25) *
    (if 0 < p.compressive_strength
     then (35 / p.compressive_strength) ^ (0.3 : ℝ) else 1.2) *
    (1.0 - fa_ratio p * 0.3) * (1.0 + (p.temperature - 20) * 0.01) *
    (if 60 ≤ p.relative_humidity ∧ p.relative_humidity ≤ 75 then 1.0
     else if p.relative_humidity < 60
     then 1.1 + (60 - p.relative_humidity) * 0.005
     else 0.9)

/-- Lines 173-174: depth `k_effective * np.sqrt(exposure_time / 365.25)`. -/
def carbonation_depth (p : Inputs) : ℝ :=
  k_effective p * Real.sqrt (p.exposure_time / 365.25)

/-- Lines 181-193: additional coefficient of variation for high
replacement, extreme environment and long exposure. -/
def additional_cv (p : Inputs) : ℝ :=
  (if 0.5 < ra_ratio p then 0.03 else 0) +
    (if 10 < |p.temperature - 20| ∨ 15 < |p.relative_humidity - 65|
     then 0.02 else 0) +
    (if 5 < p.exposure_time / 365.25 then 0.01 else 0)

/-- Line 196: `total_cv = np.sqrt(base_cv**2 + additional_cv**2)`. -/
def total_cv (p : Inputs) : ℝ :=
  Real.sqrt (base_cv p ^ 2 + additional_cv p ^ 2)

/-- Line 204: `margin = 1.96 * carbonation_depth * total_cv` — this variant
hard-codes the 95 % z-score. -/
def margin (p : Inputs) : ℝ := 1.96 * carbonation_depth p * total_cv p

/-- Line 205: `lower_bound = max(0, carbonation_depth - margin)`. -/
def lower_bound (p : Inputs) : ℝ := max 0 (carbonation_depth p - margin p)

/-- Line 206: `upper_bound = carbonation_depth + margin`. -/
def upper_bound (p : Inputs) : ℝ := carbonation_depth p + margin p

end final_corrected_model

/-- Python `int(x)` on a float: truncation toward zero. -/
def pyInt (x : ℝ) : ℤ := if 0 ≤ x then ⌊x⌋ else ⌈x⌉

/-- Python `round` to an integer: nearest, ties to even (over the idealized
reals; binary-float representation effects are outside this model). -/
def pyRoundInt (x : ℝ) : ℤ :=
  if Int.fract x = 1 / 2 then (if Even ⌊x⌋ then ⌊x⌋ else ⌊x⌋ + 1)
  else round x

/-- Python `round(x, n)` for floats. -/
def pyRound (x : ℝ) (n : ℕ) : ℝ := (pyRoundInt (x * 10 ^ n) : ℝ) / 10 ^ n

namespace stable_app

/-- Lines 38-45 of src/stable_app.py: the `ml_performance` table set up at
init, read back through `self.ml_performance.get(model,
self.ml_performance['XGB'])` at line 111 (unknown names fall back to the
XGB row). -/
def ml_performance_r2 (model : String) : ℝ :=
  if model = "XGB" then 0.934 else if model = "RF" then 0.921 else
  if model = "GB" then 0.918 else if model = "SVR" then 0.896 else
  if model = "KNN" then 0.883 else if model = "PRR" then 0.847 else 0.934

/-- Line 173 reads the table's rmse column the same way. -/
def ml_performance_rmse (model : String) : ℝ :=
  if model = "XGB" then 2.85 else if model = "RF" then 3.12 else
  if model = "GB" then 3.18 else if model = "SVR" then 3.58 else
  if model = "KNN" then 3.79 else if model = "PRR" then 4.32 else 2.85

/-- Line 140: `model_factors = {...}` with `.get(model, 1.00)`. -/
def model_factors (model : String) : ℝ :=
  if model = "XGB" then 1.00 else if model = "RF" then 1.05 else
  if model = "GB" then 1.08 else if model = "SVR" then 1.15 else
  if model = "KNN" then 1.20 else if model = "PRR" then 1.30 else 1.00

/-- Lines 64-79: the extracted parameter dict; every field is passed
through `float(...)` except `exposure_time`, which goes through
`int(...)`. -/
def params (p : Inputs) : Inputs :=
  { p with exposure_time := (pyInt p.exposure_time : ℝ) }

/-- Line 90: `temp_factor = np.exp(0.0693 * (temperature - 20))`. -/
def temp_factor (p : Inputs) : ℝ :=
  Real.exp (0.0693 * ((params p).temperature - 20))

/-- Lines 93-96: humidity factor, 1.0 on the 50-70 % band, otherwise a
raised cosine centred at 60 %. -/
def rh_factor (p : Inputs) : ℝ :=
  if 50 ≤ (params p).relative_humidity ∧ (params p).relative_humidity ≤ 70
  then 1.0
  else 0.5 + 0.5 * Real.cos (Real.pi * |(params p).relative_humidity - 60| / 40)

/-- Line 98: `co2_factor = (carbon_concentration / 0.04) ** 0.5`. -/
def co2_factor (p : Inputs) : ℝ :=
  ((params p).carbon_concentration / 0.04) ^ (0.5 : ℝ)

/-- Line 99: `time_factor = np.sqrt(exposure_time / 365.25)`. -/
def time_factor (p : Inputs) : ℝ :=
  Real.sqrt ((params p).exposure_time / 365.25)

/-- Line 102: `w_c_factor = (w_c_ratio / 0.4) ** 0.65`. -/
def w_c_factor (p : Inputs) : ℝ :=
  (w_c_ratio (params p) / 0.4) ^ (0.65 : ℝ)

/-- Line 103: `ra_factor = 1.0 + ra_ratio * 0.3`. -/
def ra_factor (p : Inputs) : ℝ := 1.0 + ra_ratio (params p) * 0.3

/-- Line 104:
`(35 / compressive_strength) ** 0.4 if compressive_strength > 0 else 1.5`. -/
def strength_factor (p : Inputs) : ℝ :=
  if 0 < (params p).compressive_strength
  then (35 / (params p).compressive_strength) ^ (0.4 : ℝ) else 1.5

/-- Line 105: `fa_factor = max(0.7, 1.0 - fa_ratio * 0.25)`. -/
def fa_factor (p : Inputs) : ℝ := max 0.7 (1.0 - fa_ratio (params p) * 0.25)

/-- Line 108: the base prediction, `k_base = 4.2` (line 89) times all
factors in the source's order. -/
def base_prediction (p : Inputs) : ℝ :=
  4.2 * w_c_factor p * ra_factor p * strength_factor p * fa_factor p *
    temp_factor p * rh_factor p * co2_factor p * time_factor p

/-- Lines 112-117: performance adjustment from the selected model's R². -/
def adjustment (model : String) : ℝ :=
  if 0.93 ≤ ml_performance_r2 model
  then 1.0 + (ml_performance_r2 model - 0.85) * 0.1
  else 1.0 - (0.93 - ml_performance_r2 model) * 0.15

/-- Line 119: `final_prediction = base_prediction * adjustment`. -/
def final_prediction (p : Inputs) (model : String) : ℝ :=
  base_prediction p * adjustment model

/-- Lines 122-127: the mix-quality score, the mean of four clipped
sub-scores. -/
def quality_score (p : Inputs) : ℝ :=
  let q := params p
  (max 0 (min 1 ((0.6 - w_c_ratio q) / 0.3)) +
    (if 0.15 ≤ fa_ratio q ∧ fa_ratio q ≤ 0.30 then 1.0
     else max 0 (if fa_ratio q < 0.15 then fa_ratio q / 0.15
                 else 1.0 - (fa_ratio q - 0.30) / 0.20)) +
    (if 0.20 ≤ ra_ratio q ∧ ra_ratio q ≤ 0.30 then 1.0
     else max 0 (if ra_ratio q < 0.20 then ra_ratio q / 0.20
                 else 1.0 - (ra_ratio q - 0.30) / 0.30)) +
    min 1.0 (q.compressive_strength / 50.0)) / 4.0

/-- Lines 130-137: base uncertainty from the quality score. -/
def base_uncertainty (p : Inputs) : ℝ :=
  if 0.95 ≤ quality_score p then 0.068
  else if 0.85 ≤ quality_score p then 0.103
  else if 0.70 ≤ quality_score p then 0.137
  else 0.180

/-- Lines 143-148: the stability corrections and the clamped total
uncertainty `max(0.05, min(0.50, ...))`. -/
def total_uncertainty (p : Inputs) (model : String) : ℝ :=
  let q := params p
  let co2_stability := if 5 ≤ q.carbon_concentration then 0.90 else 1.05
  let time_stability := if q.exposure_time ≤ 90 then 0.95 else 1.02
  let env_stability :=
    1.0 + |q.temperature - 20| * 0.005 + |q.relative_humidity - 65| * 0.001
  max 0.05 (min 0.50 (base_uncertainty p * model_factors model *
    co2_stability * time_stability * env_stability))

/-- Line 154: `margin = z_score * final_prediction * total_uncertainty`. -/
def margin (p : Inputs) (model : String) (confidence_level : ℝ) : ℝ :=
  z_scores confidence_level * final_prediction p model *
    total_uncertainty p model

/-- Line 155: `lower_bound = max(0.1, final_prediction - margin)` — this
variant floors the lower bound at 0.1 mm, not 0. -/
def lower_bound (p : Inputs) (model : String) (confidence_level : ℝ) : ℝ :=
  max 0.1 (final_prediction p model - margin p model confidence_level)

/-- Line 156: `upper_bound = final_prediction + margin`. -/
def upper_bound (p : Inputs) (model : String) (confidence_level : ℝ) : ℝ :=
  final_prediction p model + margin p model confidence_level

/-- The success payload built at lines 185-196 (numeric fields rounded as
in the source; the `ml_analysis` sub-dict is represented by its numeric
fields). -/
structure Result where
  prediction : ℝ
  lower_bound : ℝ
  upper_bound : ℝ
  confidence_level : ℝ
  model : String
  method : String
  interval_width : ℝ
  relative_uncertainty : ℝ
  expected_r2 : ℝ
  model_rmse : ℝ
  final_uncertainty : ℝ

/-- The two shapes `predict_carbonation_depth` can return: the success dict
of lines 185-196, or the `{'success': False, 'error': ...}` dict of
lines 203-206. -/
inductive Response where
  | success (r : Result)
  | failure (error : String)

/-- Whether a response dict carries `'success': True`. -/
def Response.success? : Response → Bool
  | .success _ => true
  | .failure _ => false

/-- The predictor object: `load_model_results` (lines 47-59) fills
`self.model_results` from pickles or a random fallback — the one
init-time field that varies from run to run.  `ml_performance`
(lines 36-45) is a fixed literal table, embedded above as
`ml_performance_r2` / `ml_performance_rmse`. -/
structure StableCarbonationPredictor where
  model_results : String → List ℝ

/-- Lines 61-206 of src/stable_app.py,
`StableCarbonationPredictor.predict_carbonation_depth`: the success dict
with its rounded fields, or — when `final_prediction` is zero, so that the
`relative_uncertainty` division at line 194 raises ZeroDivisionError —
the except-branch failure dict. -/
def StableCarbonationPredictor.predict_carbonation_depth
    (_self : StableCarbonationPredictor) (p : Inputs) (model : String)
    (confidence_level : ℝ) : Response :=
  if final_prediction p model = 0 then
    .failure "float division by zero"
  else
    .success
      { prediction := pyRound (final_prediction p model) 2
        lower_bound := pyRound (lower_bound p model confidence_level) 2
        upper_bound := pyRound (upper_bound p model confidence_level) 2
        confidence_level := confidence_level
        model := model
        method := "J+"
        interval_width :=
          pyRound (upper_bound p model confidence_level -
            lower_bound p model confidence_level) 2
        relative_uncertainty :=
          pyRound ((upper_bound p model confidence_level -
            lower_bound p model confidence_level) /
            final_prediction p model * 100) 1
        expected_r2 := pyRound (ml_performance_r2 model) 3
        model_rmse := ml_performance_rmse model
        final_uncertainty := pyRound (total_uncertainty p model * 100) 1 }

end stable_app

namespace web_carbonation_app

/-- The method names bound in the body of `class MLCarbonationPredictor`
(src/web_carbonation_app.py lines 18-238): `__init__` (line 19),
`init_ml_performance_database` (line 44), `load_model_results` (line 58),
`_generate_mock_results` (line 73), `predict_carbonation_depth` (line 77)
and `_calculate_carbonation_depth` (line 121).  No `def` in the class (or
the file) binds `_ml_predict_carbonation_depth`, the attribute that
`predict_carbonation_depth` looks up at line 96. -/
def class_method_names : List String :=
  ["__init__", "init_ml_performance_database", "load_model_results",
   "_generate_mock_results", "predict_carbonation_depth",
   "_calculate_carbonation_depth"]

/-- The top-level names the module has bound when execution reaches
line 241 (`predictor = CarbonationPredictor()`): the imports of lines 8-14
and the two statements at lines 16 and 18.  `CarbonationPredictor` is not
among them — the only class defined is `MLCarbonationPredictor` — so the
statement raises NameError and the module never finishes importing. -/
def module_top_level_names : List String :=
  ["Flask", "render_template", "request", "jsonify", "np", "pickle",
   "json", "random", "RandomForestRegressor", "cross_val_score", "app",
   "MLCarbonationPredictor"]

/-- Line 241, `predictor = CarbonationPredictor()`: evaluating the name
`CarbonationPredictor` succeeds only if the module has bound it. -/
def module_level_predictor : Except String Unit :=
  if "CarbonationPredictor" ∈ module_top_level_names then Except.ok ()
  else Except.error "NameError: name 'CarbonationPredictor' is not defined"

/-- The two shapes `MLCarbonationPredictor.predict_carbonation_depth` can
return: the success dict of lines 102-113 or the
`{'success': False, 'error': ...}` dict of lines 116-119. -/
inductive Response where
  | success (prediction lower_bound upper_bound : ℝ)
      (confidence_level : ℝ) (model method : String)
  | failure (error : String)

/-- Whether a response dict carries `'success': True`. -/
def Response.success? : Response → Bool
  | .success _ _ _ _ _ _ => true
  | .failure _ => false

/-- The attribute lookup `self._ml_predict_carbonation_depth` performed at
line 96: it yields a bound method only if the class defines that name. -/
def ml_predict_lookup :
    Option (Inputs → String → String → ℝ → ℝ × ℝ × ℝ) :=
  if "_ml_predict_carbonation_depth" ∈ class_method_names
  then some (fun _ _ _ _ => (0, 0, 0))
  else none

/-- Lines 77-119 of src/web_carbonation_app.py,
`MLCarbonationPredictor.predict_carbonation_depth`: the try-block calls
`self._ml_predict_carbonation_depth(...)`; if the lookup fails the raised
AttributeError is caught by the except-branch, which returns the failure
dict. -/
def predict_carbonation_depth (p : Inputs) (model method : String)
    (confidence_level : ℝ) : Response :=
  match ml_predict_lookup with
  | some f =>
      let r := f p model method confidence_level
      .success r.1 r.2.1 r.2.2 confidence_level model method
  | none =>
      .failure
        "'MLCarbonationPredictor' object has no attribute '_ml_predict_carbonation_depth'"

end web_carbonation_app

/-- The example mix of spec §8 and of the scripts' demo scenarios
(cement 350, fly ash 50, water 180, 40 % replacement, strength 35 MPa,
atmospheric CO2, one year of exposure at 20 °C / 65 % RH). -/
def exampleMix : Inputs :=
  ⟨350, 50, 180, 600, 400, 4.5, 700, 2.0, 35, 0.04, 365, 20, 65⟩

/-- A strength-41 variant of the example mix, paired below with its
strength-45 update: both strengths land on the `≥ 40` tier of
`realistic_uncertainty_model.strength_factor`. -/
def mix41 : Inputs :=
  ⟨350, 50, 180, 600, 400, 4.5, 700, 2.0, 41, 0.04, 365, 20, 65⟩

/-- A degenerate record with zero binder (cement = fly ash = 0) and zero
coarse aggregate (natural and recycled both 0), exercising both guarded
fallbacks. -/
def degenerateMix : Inputs :=
  ⟨0, 0, 180, 0, 0, 4.5, 700, 2.0, 35, 0.04, 365, 20, 65⟩

/-- A valid but extreme mix for the stable_app variant, parameterized by
the exposure time: water/binder exactly 0.4, no fly ash, no recycled
aggregate, strength 35, atmospheric CO2, temperature 0 °C and relative
humidity 0 % (both at their documented minima).  At a short exposure its
final prediction falls below the 0.1 mm lower-bound floor. -/
def coldDryMix (et : ℝ) : Inputs :=
  ⟨400, 0, 160, 1000, 0, 4.5, 700, 2.0, 35, 0.04, et, 0, 0⟩

/-- A valid mix whose stable_app prediction is comfortably above the
0.1 mm floor: the example-mix proportions with water/binder 0.4 and a
one-year exposure. -/
def yearMix : Inputs :=
  ⟨400, 0, 160, 1000, 0, 4.5, 700, 2.0, 35, 0.04, 365, 20, 65⟩

lemma z_scores_pos (c : ℝ) : 0 < z_scores c := by
  unfold z_scores; split_ifs <;> norm_num

lemma ra_ratio_nonneg (p : Inputs) (h1 : 0 ≤ p.coarse_agg)
    (h2 : 0 ≤ p.recycled_agg) : 0 ≤ ra_ratio p := by
  unfold ra_ratio
  split_ifs with h
  · exact div_nonneg h2 h.le
  · norm_num

lemma ra_ratio_le_one (p : Inputs) (h1 : 0 ≤ p.coarse_agg) :
    ra_ratio p ≤ 1 := by
  unfold ra_ratio total_agg
  split_ifs with h
  · rw [div_le_one (by simpa [total_agg] using h)]
    linarith
  · norm_num

lemma fa_ratio_nonneg (p : Inputs) (h2 : 0 ≤ p.fly_ash) : 0 ≤ fa_ratio p := by
  unfold fa_ratio
  split_ifs with h
  · exact div_nonneg h2 h.le
  · norm_num

lemma fa_ratio_le_one (p : Inputs) (h1 : 0 ≤ p.cement) : fa_ratio p ≤ 1 := by
  unfold fa_ratio binder_content
  split_ifs with h
  · rw [div_le_one (by simpa [binder_content] using h)]
    linarith
  · norm_num

lemma w_c_ratio_nonneg (p : Inputs) (h : 0 ≤ p.water) : 0 ≤ w_c_ratio p := by
  unfold w_c_ratio
  split_ifs with hb
  · exact div_nonneg h hb.le
  · norm_num

lemma corrected_prediction_fields (p : Inputs) (c : ℝ) :
    (corrected_prediction.realistic_carbonation_prediction p c).prediction
        = corrected_prediction.carbonation_depth p ∧
      (corrected_prediction.realistic_carbonation_prediction p c).lower_bound
        = max 0 (corrected_prediction.carbonation_depth p -
            corrected_prediction.margin p c) ∧
      (corrected_prediction.realistic_carbonation_prediction p c).upper_bound
        = corrected_prediction.carbonation_depth p +
            corrected_prediction.margin p c ∧
      (corrected_prediction.realistic_carbonation_prediction p c).cv_total
        = corrected_prediction.cv_total p :=
  ⟨rfl, rfl, rfl, rfl⟩

lemma realistic_uncertainty_fields (p : Inputs) (c : ℝ) :
    (realistic_uncertainty_model.realistic_uncertainty_prediction p c).prediction
        = realistic_uncertainty_model.carbonation_depth p ∧
      (realistic_uncertainty_model.realistic_uncertainty_prediction p c).lower_bound
        = max 0 (realistic_uncertainty_model.carbonation_depth p -
            realistic_uncertainty_model.margin p c) ∧
      (realistic_uncertainty_model.realistic_uncertainty_prediction p c).upper_bound
        = realistic_uncertainty_model.carbonation_depth p +
            realistic_uncertainty_model.margin p c ∧
      (realistic_uncertainty_model.realistic_uncertainty_prediction p c).cv_total
        = realistic_uncertainty_model.cv_total p :=
  ⟨rfl, rfl, rfl, rfl⟩

namespace corrected_prediction

lemma k_base_pos_corr (w : ℝ) : 0 < k_base w := by
  unfold k_base; split_ifs <;> norm_num

lemma ra_factor_pos (p : Inputs) (h : 0 ≤ ra_ratio p) : 0 < ra_factor p := by
  unfold ra_factor; nlinarith

lemma strength_factor_pos_corr (p : Inputs) : 0 < strength_factor p := by
  unfold strength_factor
  split_ifs with h
  · exact Real.rpow_pos_of_pos (div_pos (by norm_num) h) _
  · norm_num

lemma temp_factor_pos (p : Inputs) (h : 0 ≤ p.temperature) :
    0 < temp_factor p := by
  unfold temp_factor; nlinarith

lemma rh_factor_pos (p : Inputs) : 0 < rh_factor p := by
  unfold rh_factor
  split_ifs with h1 h2
  · norm_num
  · nlinarith
  · norm_num

lemma fa_factor_pos_corr (p : Inputs) (h : fa_ratio p ≤ 1) : 0 < fa_factor p := by
  unfold fa_factor; nlinarith

lemma co2_acceleration_factor_pos (p : Inputs) :
    0 < co2_acceleration_factor p := by
  unfold co2_acceleration_factor
  split_ifs with h
  · linarith
  · norm_num

lemma k_effective_pos (p : Inputs) (hce : 0 ≤ p.cement) (hfa : 0 ≤ p.fly_ash)
    (hca : 0 ≤ p.coarse_agg) (hra : 0 ≤ p.recycled_agg)
    (ht : 0 ≤ p.temperature) : 0 < k_effective p := by
  unfold k_effective
  exact mul_pos (mul_pos (mul_pos (mul_pos (mul_pos (mul_pos
    (k_base_pos_corr _) (ra_factor_pos p (ra_ratio_nonneg p hca hra)))
    (strength_factor_pos_corr p)) (temp_factor_pos p ht)) (rh_factor_pos p))
    (fa_factor_pos_corr p (fa_ratio_le_one p hce)))
    (co2_acceleration_factor_pos p)

lemma carbonation_depth_nonneg (p : Inputs) (hce : 0 ≤ p.cement)
    (hfa : 0 ≤ p.fly_ash) (hca : 0 ≤ p.coarse_agg) (hra : 0 ≤ p.recycled_agg)
    (ht : 0 ≤ p.temperature) : 0 ≤ carbonation_depth p :=
  mul_nonneg (k_effective_pos p hce hfa hca hra ht).le (Real.sqrt_nonneg _)

lemma cv_total_nonneg (p : Inputs) : 0 ≤ cv_total p := Real.sqrt_nonneg _

lemma margin_nonneg_corr (p : Inputs) (c : ℝ)
    (hd : 0 ≤ carbonation_depth p) : 0 ≤ margin p c :=
  mul_nonneg (mul_nonneg (z_scores_pos c).le hd) (cv_total_nonneg p)

end corrected_prediction

namespace stable_app

lemma params_fields (p : Inputs) :
    (params p).cement = p.cement ∧ (params p).fly_ash = p.fly_ash ∧
      (params p).water = p.water ∧ (params p).coarse_agg = p.coarse_agg ∧
      (params p).recycled_agg = p.recycled_agg ∧
      (params p).compressive_strength = p.compressive_strength ∧
      (params p).carbon_concentration = p.carbon_concentration ∧
      (params p).temperature = p.temperature ∧
      (params p).relative_humidity = p.relative_humidity :=
  ⟨rfl, rfl, rfl, rfl, rfl, rfl, rfl, rfl, rfl⟩

lemma r2_mem (model : String) :
    0.847 ≤ ml_performance_r2 model ∧ ml_performance_r2 model ≤ 0.934 := by
  unfold ml_performance_r2; split_ifs <;> norm_num

lemma adjustment_pos (model : String) : 0 < adjustment model := by
  have h := r2_mem model
  unfold adjustment
  split_ifs with hr <;> nlinarith [h.1, h.2]

lemma w_c_factor_nonneg (p : Inputs) (hw : 0 ≤ p.water) :
    0 ≤ w_c_factor p := by
  unfold w_c_factor
  have h : 0 ≤ w_c_ratio (params p) := w_c_ratio_nonneg _ hw
  exact Real.rpow_nonneg (by positivity) _

lemma ra_factor_nonneg_stab (p : Inputs) (hca : 0 ≤ p.coarse_agg)
    (hra : 0 ≤ p.recycled_agg) : 0 ≤ ra_factor p := by
  unfold ra_factor
  have h : 0 ≤ ra_ratio (params p) := ra_ratio_nonneg _ hca hra
  nlinarith

lemma strength_factor_pos_stab (p : Inputs) : 0 < strength_factor p := by
  unfold strength_factor
  split_ifs with h
  · exact Real.rpow_pos_of_pos (div_pos (by norm_num) h) _
  · norm_num

lemma fa_factor_pos_stab (p : Inputs) : 0 < fa_factor p :=
  lt_of_lt_of_le (by norm_num) (le_max_left _ _)

lemma rh_factor_nonneg_stab (p : Inputs) : 0 ≤ rh_factor p := by
  unfold rh_factor
  split_ifs with h
  · norm_num
  · nlinarith [Real.neg_one_le_cos
      (Real.pi * |(params p).relative_humidity - 60| / 40)]

lemma co2_factor_nonneg_stab (p : Inputs)
    (hc : 0 ≤ p.carbon_concentration) : 0 ≤ co2_factor p := by
  unfold co2_factor
  exact Real.rpow_nonneg (by positivity) _

lemma base_prediction_nonneg (p : Inputs) (hw : 0 ≤ p.water)
    (hca : 0 ≤ p.coarse_agg) (hra : 0 ≤ p.recycled_agg)
    (hc : 0 ≤ p.carbon_concentration) : 0 ≤ base_prediction p := by
  unfold base_prediction
  have h1 := w_c_factor_nonneg p hw
  have h2 := ra_factor_nonneg_stab p hca hra
  have h3 := (strength_factor_pos_stab p).le
  have h4 := (fa_factor_pos_stab p).le
  have h5 := (Real.exp_pos (0.0693 * ((params p).temperature - 20))).le
  have h6 := rh_factor_nonneg_stab p
  have h7 := co2_factor_nonneg_stab p hc
  have h8 : 0 ≤ time_factor p := Real.sqrt_nonneg _
  unfold temp_factor at h5
  positivity

lemma final_prediction_nonneg (p : Inputs) (hw : 0 ≤ p.water)
    (hca : 0 ≤ p.coarse_agg) (hra : 0 ≤ p.recycled_agg)
    (hc : 0 ≤ p.carbon_concentration) (model : String) :
    0 ≤ final_prediction p model :=
  mul_nonneg (base_prediction_nonneg p hw hca hra hc) (adjustment_pos model).le

lemma total_uncertainty_mem (p : Inputs) (model : String) :
    0.05 ≤ total_uncertainty p model ∧ total_uncertainty p model ≤ 0.5 := by
  unfold total_uncertainty
  constructor
  · exact le_max_left _ _
  · exact max_le (by norm_num) (le_trans (min_le_left _ _) (by norm_num))

lemma margin_nonneg_stab (p : Inputs) (model : String) (c : ℝ)
    (hf : 0 ≤ final_prediction p model) : 0 ≤ margin p model c :=
  mul_nonneg (mul_nonneg (z_scores_pos c).le hf)
    (le_trans (by norm_num) (total_uncertainty_mem p model).1)

end stable_app

/-- Claim C4: if the binder content (cement + fly ash) is zero the
estimator does not raise but proceeds with a fallback water/binder ratio
of 0.5; if the total coarse aggregate mass is zero it proceeds with a
replacement ratio of 0; and in both cases a complete result record is
still returned (its bounds assembled as usual, with a non-negative lower
bound). -/
theorem claim_C4 (p : Inputs) (conf : ℝ) :
    (binder_content p = 0 → w_c_ratio p = 0.5) ∧
      (total_agg p = 0 → ra_ratio p = 0) ∧
      0 ≤ (corrected_prediction.realistic_carbonation_prediction p conf).lower_bound ∧
      (corrected_prediction.realistic_carbonation_prediction p conf).upper_bound
        = (corrected_prediction.realistic_carbonation_prediction p conf).prediction
            + corrected_prediction.margin p conf := by
  refine ⟨fun h => ?_, fun h => ?_, le_max_left 0 _, rfl⟩
  · unfold w_c_ratio
    rw [h]
    norm_num
  · unfold ra_ratio
    rw [h]
    norm_num

/-- Claim C4, witnessed at the degenerate record with zero binder and zero
total aggregate. -/
theorem claim_C4_witness :
    binder_content degenerateMix = 0 ∧ w_c_ratio degenerateMix = 0.5 ∧
      total_agg degenerateMix = 0 ∧ ra_ratio degenerateMix = 0 := by
  have h1 : binder_content degenerateMix = 0 := by
    norm_num [binder_content, degenerateMix]
  have h2 : total_agg degenerateMix = 0 := by
    norm_num [total_agg, degenerateMix]
  exact ⟨h1, (claim_C4 degenerateMix 0.95).1 h1, h2,
    (claim_C4 degenerateMix 0.95).2.1 h2⟩

/-- Claim C5: the z-score for confidence level 0.90 / 0.95 / 0.99 is
1.645 / 1.96 / 2.576, every other confidence level silently falls back to
z = 1.96, and the estimator still returns a complete result (non-negative
lower bound, upper bound assembled from the z-score margin) for any
confidence level. -/
theorem claim_C5 (c : ℝ) (p : Inputs) :
    z_scores 0.90 = 1.645 ∧ z_scores 0.95 = 1.96 ∧ z_scores 0.99 = 2.576 ∧
      (c ≠ 0.90 → c ≠ 0.95 → c ≠ 0.99 → z_scores c = 1.96) ∧
      0 ≤ (realistic_uncertainty_model.realistic_uncertainty_prediction p c).lower_bound ∧
      (realistic_uncertainty_model.realistic_uncertainty_prediction p c).upper_bound
        = (realistic_uncertainty_model.realistic_uncertainty_prediction p c).prediction
            + z_scores c
              * (realistic_uncertainty_model.realistic_uncertainty_prediction p c).prediction
              * realistic_uncertainty_model.cv_total p := by
  refine ⟨by norm_num [z_scores], by norm_num [z_scores],
    by norm_num [z_scores], fun h1 h2 h3 => by simp [z_scores, h1, h2, h3],
    le_max_left 0 _, rfl⟩

/-- Claim C5, witnessed at the out-of-table confidence level 0.85. -/
theorem claim_C5_witness :
    (0.85 : ℝ) ≠ 0.90 ∧ (0.85 : ℝ) ≠ 0.95 ∧ (0.85 : ℝ) ≠ 0.99 ∧
      z_scores 0.85 = 1.96 := by
  refine ⟨by norm_num, by norm_num, by norm_num, ?_⟩
  exact (claim_C5 0.85 exampleMix).2.2.2.1 (by norm_num) (by norm_num)
    (by norm_num)

/-- Claim C7: in each variant the total coefficient of variation is the
root-sum-of-squares of the four independent variance contributors (base
mix-quality, material/recycled-aggregate, environmental deviation,
exposure duration), and the margin — the distance from the point estimate
to the upper bound — equals z × point estimate × coefficient of
variation. -/
theorem claim_C7 (p : Inputs) (conf : ℝ) :
    ((corrected_prediction.realistic_carbonation_prediction p conf).cv_total
        = Real.sqrt (corrected_prediction.cv_base ^ 2 +
            corrected_prediction.cv_material p ^ 2 +
            corrected_prediction.cv_environment p ^ 2 +
            corrected_prediction.cv_time p ^ 2) ∧
      (corrected_prediction.realistic_carbonation_prediction p conf).upper_bound
          - (corrected_prediction.realistic_carbonation_prediction p conf).prediction
        = z_scores conf
            * (corrected_prediction.realistic_carbonation_prediction p conf).prediction
            * (corrected_prediction.realistic_carbonation_prediction p conf).cv_total) ∧
    ((realistic_uncertainty_model.realistic_uncertainty_prediction p conf).cv_total
        = Real.sqrt (realistic_uncertainty_model.cv_base p ^ 2 +
            realistic_uncertainty_model.cv_ra p ^ 2 +
            realistic_uncertainty_model.cv_env p ^ 2 +
            realistic_uncertainty_model.cv_time p ^ 2) ∧
      (realistic_uncertainty_model.realistic_uncertainty_prediction p conf).upper_bound
          - (realistic_uncertainty_model.realistic_uncertainty_prediction p conf).prediction
        = z_scores conf
            * (realistic_uncertainty_model.realistic_uncertainty_prediction p conf).prediction
            * (realistic_uncertainty_model.realistic_uncertainty_prediction p conf).cv_total) ∧
    ((uncertainty_analysis.calculate_uncertainty_detailed p conf).total_uncertainty
        = Real.sqrt (uncertainty_analysis.material_uncertainty p ^ 2 +
            uncertainty_analysis.model_uncertainty p ^ 2 +
            uncertainty_analysis.env_uncertainty p ^ 2 +
            uncertainty_analysis.time_uncertainty p ^ 2) ∧
      (uncertainty_analysis.calculate_uncertainty_detailed p conf).upper_bound
          - (uncertainty_analysis.calculate_uncertainty_detailed p conf).prediction
        = z_scores conf
            * (uncertainty_analysis.calculate_uncertainty_detailed p conf).prediction
            * (uncertainty_analysis.calculate_uncertainty_detailed p conf).total_uncertainty) := by
  refine ⟨⟨rfl, ?_⟩, ⟨rfl, ?_⟩, ⟨rfl, ?_⟩⟩
  · show corrected_prediction.carbonation_depth p +
        corrected_prediction.margin p conf -
        corrected_prediction.carbonation_depth p
      = z_scores conf * corrected_prediction.carbonation_depth p *
          corrected_prediction.cv_total p
    unfold corrected_prediction.margin
    ring
  · show realistic_uncertainty_model.carbonation_depth p +
        realistic_uncertainty_model.margin p conf -
        realistic_uncertainty_model.carbonation_depth p
      = z_scores conf * realistic_uncertainty_model.carbonation_depth p *
          realistic_uncertainty_model.cv_total p
    unfold realistic_uncertainty_model.margin
    ring
  · show uncertainty_analysis.carbonation_depth p +
        uncertainty_analysis.margin p conf -
        uncertainty_analysis.carbonation_depth p
      = z_scores conf * uncertainty_analysis.carbonation_depth p *
          uncertainty_analysis.total_uncertainty p
    unfold uncertainty_analysis.margin
    ring

/-- Claim C8: a water/binder ratio lying exactly on a tier boundary
resolves deterministically to the lower tier — the band comparisons are
inclusive (`<=`), so the coefficient chosen at a boundary value is that of
the band whose upper end is the boundary (shown at every boundary of the
five-band table of realistic_uncertainty_model and of the four-band table
of final_corrected_model, and for the whole (0.3, 0.4] band). -/
theorem claim_C8 (w : ℝ) :
    realistic_uncertainty_model.k_base 0.3 = 1.5 ∧
      realistic_uncertainty_model.k_base 0.4 = 2.5 ∧
      realistic_uncertainty_model.k_base 0.5 = 4.0 ∧
      realistic_uncertainty_model.k_base 0.6 = 6.5 ∧
      (0.3 < w → w ≤ 0.4 → realistic_uncertainty_model.k_base w = 2.5) ∧
      final_corrected_model.k_base 0.4 = 2.5 ∧
      final_corrected_model.k_base 0.5 = 4.0 ∧
      final_corrected_model.k_base 0.6 = 6.5 := by
  refine ⟨by norm_num [realistic_uncertainty_model.k_base],
    by norm_num [realistic_uncertainty_model.k_base],
    by norm_num [realistic_uncertainty_model.k_base],
    by norm_num [realistic_uncertainty_model.k_base],
    fun h1 h2 => ?_,
    by norm_num [final_corrected_model.k_base],
    by norm_num [final_corrected_model.k_base],
    by norm_num [final_corrected_model.k_base]⟩
  unfold realistic_uncertainty_model.k_base
  rw [if_neg (by linarith), if_pos h2]

/-- Claim C8, witnessed inside the (0.3, 0.4] band at w = 0.35. -/
theorem claim_C8_witness :
    (0.3 : ℝ) < 0.35 ∧ (0.35 : ℝ) ≤ 0.4 ∧
      realistic_uncertainty_model.k_base 0.35 = 2.5 :=
  ⟨by norm_num, by norm_num,
    (claim_C8 0.35).2.2.2.2.1 (by norm_num) (by norm_num)⟩

/-- Claim C9: the estimators are deterministic — two calls with identical
inputs and confidence level return identical result records, and for the
stable_app predictor object the one run-dependent piece of state (the
`model_results` field loaded at init) does not influence the returned
response at all. -/
theorem claim_C9 (s₁ s₂ : stable_app.StableCarbonationPredictor)
    (p₁ p₂ : Inputs) (model : String) (c₁ c₂ : ℝ) (hp : p₁ = p₂)
    (hc : c₁ = c₂) :
    corrected_prediction.realistic_carbonation_prediction p₁ c₁
        = corrected_prediction.realistic_carbonation_prediction p₂ c₂ ∧
      realistic_uncertainty_model.realistic_uncertainty_prediction p₁ c₁
        = realistic_uncertainty_model.realistic_uncertainty_prediction p₂ c₂ ∧
      s₁.predict_carbonation_depth p₁ model c₁
        = s₂.predict_carbonation_depth p₂ model c₂ := by
  subst hp hc
  exact ⟨rfl, rfl, rfl⟩

/-- Claim C9, witnessed by two stable_app predictor objects holding
different `model_results` state. -/
theorem claim_C9_witness :
    (stable_app.StableCarbonationPredictor.mk
        (fun _ => [])).predict_carbonation_depth exampleMix "XGB" 0.95
      = (stable_app.StableCarbonationPredictor.mk
          (fun _ => [10, 2])).predict_carbonation_depth exampleMix "XGB" 0.95 :=
  (claim_C9 (stable_app.StableCarbonationPredictor.mk (fun _ => []))
    (stable_app.StableCarbonationPredictor.mk (fun _ => [10, 2]))
    exampleMix exampleMix "XGB" 0.95 0.95 rfl rfl).2.2

namespace realistic_uncertainty_model

lemma k_base_pos_real (w : ℝ) : 0 < k_base w := by
  unfold k_base; split_ifs <;> norm_num

lemma ra_factor_nonneg_real (r : ℝ) (h : 0 ≤ r) : 0 ≤ ra_factor r := by
  unfold ra_factor; split_ifs <;> nlinarith

lemma strength_factor_antitone (t₁ t₂ : ℝ) (h : t₁ ≤ t₂) :
    strength_factor t₂ ≤ strength_factor t₁ := by
  unfold strength_factor
  split_ifs <;> linarith

lemma strength_factor_pos_real (t : ℝ) : 0 < strength_factor t := by
  unfold strength_factor; split_ifs <;> norm_num

lemma fa_factor_nonneg_real (p : Inputs) (h : fa_ratio p ≤ 1) :
    0 ≤ fa_factor p := by
  unfold fa_factor; nlinarith

lemma temp_factor_nonneg_real (p : Inputs) (h : 0 ≤ p.temperature) :
    0 ≤ temp_factor p := by
  unfold temp_factor; nlinarith

lemma rh_factor_nonneg_real (p : Inputs) : 0 ≤ rh_factor p := by
  unfold rh_factor
  split_ifs with h1 h2 <;> nlinarith

lemma co2_factor_nonneg_real (p : Inputs) : 0 ≤ co2_factor p := by
  unfold co2_factor
  split_ifs with h
  · positivity
  · exact Real.sqrt_nonneg _

end realistic_uncertainty_model

/-- Claim C2 (amended): holding the other 12 fields fixed at valid values
with a positive exposure time, the corrected_prediction point estimate is
strictly decreasing in compressive strength (its strength factor is the
continuous power law `(30/s)^0.3`); in the realistic_uncertainty_model
variant the strength factor is a three-tier step function, so there the
point estimate is only non-increasing in strength, not strictly
decreasing. -/
theorem claim_C2 (p : Inputs) (conf : ℝ) (s₁ s₂ : ℝ) (hv : ValidInputs p)
    (ht : 0 < p.exposure_time) (h1 : 0 < s₁) (h12 : s₁ < s₂) :
    (corrected_prediction.realistic_carbonation_prediction
        {p with compressive_strength := s₂} conf).prediction
      < (corrected_prediction.realistic_carbonation_prediction
          {p with compressive_strength := s₁} conf).prediction ∧
    (realistic_uncertainty_model.realistic_uncertainty_prediction
        {p with compressive_strength := s₂} conf).prediction
      ≤ (realistic_uncertainty_model.realistic_uncertainty_prediction
          {p with compressive_strength := s₁} conf).prediction := by
  obtain ⟨hce1, hce2, hfa1, hfa2, hw1, hw2, hca1, hca2, hra1, hra2, hwa1,
    hwa2, hfg1, hfg2, hsp1, hsp2, hcs1, hcs2, hcc1, hcc2, het1, het2, htp1,
    htp2, hrh1, hrh2⟩ := hv
  have hce0 : (0 : ℝ) ≤ p.cement := by linarith
  have hw0 : (0 : ℝ) ≤ p.water := by linarith
  have hsqrtpos : 0 < Real.sqrt (p.exposure_time / 365.25) :=
    Real.sqrt_pos.mpr (by positivity)
  constructor
  · have hfact : ∀ s : ℝ,
        corrected_prediction.carbonation_depth
            {p with compressive_strength := s}
          = corrected_prediction.strength_factor
              {p with compressive_strength := s} *
              (corrected_prediction.k_base (w_c_ratio p) *
                corrected_prediction.ra_factor p *
                corrected_prediction.temp_factor p *
                corrected_prediction.rh_factor p *
                corrected_prediction.fa_factor p *
                corrected_prediction.co2_acceleration_factor p *
                Real.sqrt (p.exposure_time / 365.25)) := by
      intro s
      unfold corrected_prediction.carbonation_depth
        corrected_prediction.k_effective
      rw [show w_c_ratio {p with compressive_strength := s} = w_c_ratio p
          from rfl,
        show corrected_prediction.ra_factor {p with compressive_strength := s}
          = corrected_prediction.ra_factor p from rfl,
        show corrected_prediction.temp_factor {p with compressive_strength := s}
          = corrected_prediction.temp_factor p from rfl,
        show corrected_prediction.rh_factor {p with compressive_strength := s}
          = corrected_prediction.rh_factor p from rfl,
        show corrected_prediction.fa_factor {p with compressive_strength := s}
          = corrected_prediction.fa_factor p from rfl,
        show corrected_prediction.co2_acceleration_factor
            {p with compressive_strength := s}
          = corrected_prediction.co2_acceleration_factor p from rfl,
        show corrected_prediction.time_years {p with compressive_strength := s}
          = p.exposure_time / 365.25 from rfl]
      ring
    have hsf : ∀ s : ℝ, 0 < s →
        corrected_prediction.strength_factor {p with compressive_strength := s}
          = (30 / s) ^ (0.3 : ℝ) := by
      intro s hs
      unfold corrected_prediction.strength_factor
      rw [show ({p with compressive_strength := s} :
          Inputs).compressive_strength = s from rfl, if_pos hs]
    have h2pos : 0 < s₂ := h1.trans h12
    have hlt : (30 / s₂ : ℝ) ^ (0.3 : ℝ) < (30 / s₁) ^ (0.3 : ℝ) :=
      Real.rpow_lt_rpow (by positivity)
        (div_lt_div_of_pos_left (by norm_num) h1 h12) (by norm_num)
    have hC : 0 < corrected_prediction.k_base (w_c_ratio p) *
        corrected_prediction.ra_factor p *
        corrected_prediction.temp_factor p *
        corrected_prediction.rh_factor p *
        corrected_prediction.fa_factor p *
        corrected_prediction.co2_acceleration_factor p *
        Real.sqrt (p.exposure_time / 365.25) :=
      mul_pos (mul_pos (mul_pos (mul_pos (mul_pos (mul_pos
        (corrected_prediction.k_base_pos_corr _)
        (corrected_prediction.ra_factor_pos p
          (ra_ratio_nonneg p hca1 hra1)))
        (corrected_prediction.temp_factor_pos p htp1))
        (corrected_prediction.rh_factor_pos p))
        (corrected_prediction.fa_factor_pos_corr p (fa_ratio_le_one p hce0)))
        (corrected_prediction.co2_acceleration_factor_pos p)) hsqrtpos
    show corrected_prediction.carbonation_depth
        {p with compressive_strength := s₂}
      < corrected_prediction.carbonation_depth
          {p with compressive_strength := s₁}
    rw [hfact s₂, hfact s₁, hsf s₂ h2pos, hsf s₁ h1]
    exact mul_lt_mul_of_pos_right hlt hC
  · have hfact : ∀ s : ℝ,
        realistic_uncertainty_model.carbonation_depth
            {p with compressive_strength := s}
          = realistic_uncertainty_model.strength_factor s *
              (realistic_uncertainty_model.k_base (w_c_ratio p) *
                realistic_uncertainty_model.ra_factor (ra_ratio p) *
                realistic_uncertainty_model.fa_factor p *
                realistic_uncertainty_model.temp_factor p *
                realistic_uncertainty_model.rh_factor p *
                realistic_uncertainty_model.co2_factor p *
                Real.sqrt (p.exposure_time / 365.25)) := by
      intro s
      unfold realistic_uncertainty_model.carbonation_depth
        realistic_uncertainty_model.k_effective
      rw [show w_c_ratio {p with compressive_strength := s} = w_c_ratio p
          from rfl,
        show ra_ratio {p with compressive_strength := s} = ra_ratio p
          from rfl,
        show ({p with compressive_strength := s} :
          Inputs).compressive_strength = s from rfl,
        show realistic_uncertainty_model.fa_factor
            {p with compressive_strength := s}
          = realistic_uncertainty_model.fa_factor p from rfl,
        show realistic_uncertainty_model.temp_factor
            {p with compressive_strength := s}
          = realistic_uncertainty_model.temp_factor p from rfl,
        show realistic_uncertainty_model.rh_factor
            {p with compressive_strength := s}
          = realistic_uncertainty_model.rh_factor p from rfl,
        show realistic_uncertainty_model.co2_factor
            {p with compressive_strength := s}
          = realistic_uncertainty_model.co2_factor p from rfl,
        show realistic_uncertainty_model.time_years
            {p with compressive_strength := s}
          = p.exposure_time / 365.25 from rfl]
      ring
    have hC : 0 ≤ realistic_uncertainty_model.k_base (w_c_ratio p) *
        realistic_uncertainty_model.ra_factor (ra_ratio p) *
        realistic_uncertainty_model.fa_factor p *
        realistic_uncertainty_model.temp_factor p *
        realistic_uncertainty_model.rh_factor p *
        realistic_uncertainty_model.co2_factor p *
        Real.sqrt (p.exposure_time / 365.25) :=
      mul_nonneg (mul_nonneg (mul_nonneg (mul_nonneg (mul_nonneg (mul_nonneg
        (realistic_uncertainty_model.k_base_pos_real _).le
        (realistic_uncertainty_model.ra_factor_nonneg_real _
          (ra_ratio_nonneg p hca1 hra1)))
        (realistic_uncertainty_model.fa_factor_nonneg_real p
          (fa_ratio_le_one p hce0)))
        (realistic_uncertainty_model.temp_factor_nonneg_real p htp1))
        (realistic_uncertainty_model.rh_factor_nonneg_real p))
        (realistic_uncertainty_model.co2_factor_nonneg_real p)) hsqrtpos.le
    show realistic_uncertainty_model.carbonation_depth
        {p with compressive_strength := s₂}
      ≤ realistic_uncertainty_model.carbonation_depth
          {p with compressive_strength := s₁}
    rw [hfact s₂, hfact s₁]
    exact mul_le_mul_of_nonneg_right
      (realistic_uncertainty_model.strength_factor_antitone s₁ s₂ h12.le) hC

/-- Claim C2, witnessed at the example mix with strengths 30 < 40 MPa. -/
theorem claim_C2_witness :
    ValidInputs exampleMix ∧ 0 < exampleMix.exposure_time ∧ (0 : ℝ) < 30 ∧
      (30 : ℝ) < 40 ∧
      (corrected_prediction.realistic_carbonation_prediction
          {exampleMix with compressive_strength := 40} 0.95).prediction
        < (corrected_prediction.realistic_carbonation_prediction
            {exampleMix with compressive_strength := 30} 0.95).prediction := by
  have hv : ValidInputs exampleMix := by norm_num [ValidInputs, exampleMix]
  have ht : 0 < exampleMix.exposure_time := by norm_num [exampleMix]
  exact ⟨hv, ht, by norm_num, by norm_num,
    (claim_C2 exampleMix 0.95 30 40 hv ht (by norm_num) (by norm_num)).1⟩

/-- Claim C2 as stated is false for the realistic_uncertainty_model
variant: strengths 41 and 45 MPa (both valid, both on the `≥ 40` tier of
its step strength factor) yield equal point estimates, not a strictly
smaller one at the higher strength. -/
theorem claim_C2_cex :
    (41 : ℝ) < 45 ∧ ValidInputs mix41 ∧
      ValidInputs {mix41 with compressive_strength := 45} ∧
      0 < mix41.exposure_time ∧
      (realistic_uncertainty_model.realistic_uncertainty_prediction
          {mix41 with compressive_strength := 45} 0.95).prediction
        = (realistic_uncertainty_model.realistic_uncertainty_prediction
            mix41 0.95).prediction := by
  refine ⟨by norm_num, by norm_num [ValidInputs, mix41],
    by norm_num [ValidInputs, mix41], by norm_num [mix41], ?_⟩
  show realistic_uncertainty_model.carbonation_depth
      {mix41 with compressive_strength := 45}
    = realistic_uncertainty_model.carbonation_depth mix41
  unfold realistic_uncertainty_model.carbonation_depth
    realistic_uncertainty_model.k_effective
  rw [show realistic_uncertainty_model.strength_factor
      ({mix41 with compressive_strength := 45} :
        Inputs).compressive_strength
    = realistic_uncertainty_model.strength_factor
        mix41.compressive_strength by
      show realistic_uncertainty_model.strength_factor (45 : ℝ)
        = realistic_uncertainty_model.strength_factor (41 : ℝ)
      unfold realistic_uncertainty_model.strength_factor
      norm_num]
  rfl

/-- Claim C3: with every input except exposure time held fixed, the point
estimate scales with the square root of exposure time — at exposure time
4t it is exactly twice the estimate at exposure time t (exact over the
idealized reals; the claim's floating-point tolerance is not needed), for
both the corrected_prediction and the simple_prediction variants. -/
theorem claim_C3 (p : Inputs) (conf : ℝ) (h : 0 < p.exposure_time) :
    (corrected_prediction.realistic_carbonation_prediction
        {p with exposure_time := 4 * p.exposure_time} conf).prediction
      = 2 * (corrected_prediction.realistic_carbonation_prediction p
          conf).prediction ∧
    simple_prediction.predict_carbonation_depth
        {p with exposure_time := 4 * p.exposure_time}
      = 2 * simple_prediction.predict_carbonation_depth p := by
  have sqrt4 : Real.sqrt 4 = 2 := by
    rw [show (4 : ℝ) = 2 ^ 2 by norm_num, Real.sqrt_sq (by norm_num)]
  have key : ∀ t : ℝ, Real.sqrt (4 * t / 365.25)
      = 2 * Real.sqrt (t / 365.25) := by
    intro t
    rw [show 4 * t / 365.25 = 4 * (t / 365.25) by ring,
      Real.sqrt_mul (by norm_num) _, sqrt4]
  constructor
  · show corrected_prediction.carbonation_depth
        {p with exposure_time := 4 * p.exposure_time}
      = 2 * corrected_prediction.carbonation_depth p
    unfold corrected_prediction.carbonation_depth
      corrected_prediction.time_years
    rw [show corrected_prediction.k_effective
        {p with exposure_time := 4 * p.exposure_time}
      = corrected_prediction.k_effective p from rfl]
    rw [show ({p with exposure_time := 4 * p.exposure_time} :
        Inputs).exposure_time = 4 * p.exposure_time from rfl]
    rw [key]
    ring
  · have tf : simple_prediction.time_factor
        {p with exposure_time := 4 * p.exposure_time}
      = 2 * simple_prediction.time_factor p := by
      unfold simple_prediction.time_factor simple_prediction.time_years
      rw [show ({p with exposure_time := 4 * p.exposure_time} :
          Inputs).exposure_time = 4 * p.exposure_time from rfl]
      rw [if_pos (show (0 : ℝ) < 4 * p.exposure_time / 365.25 by positivity),
        if_pos (show (0 : ℝ) < p.exposure_time / 365.25 by positivity),
        key]
    unfold simple_prediction.predict_carbonation_depth
    rw [show ({p with exposure_time := 4 * p.exposure_time} :
        Inputs).fly_ash = p.fly_ash from rfl]
    rw [show simple_prediction.k_effective
        {p with exposure_time := 4 * p.exposure_time}
      = simple_prediction.k_effective p from rfl]
    rw [show binder_content {p with exposure_time := 4 * p.exposure_time}
      = binder_content p from rfl]
    rw [tf]
    split_ifs with hf
    · ring
    · ring

/-- Claim C3, witnessed at the example mix (365-day exposure versus
1460 days). -/
theorem claim_C3_witness :
    0 < exampleMix.exposure_time ∧
      (corrected_prediction.realistic_carbonation_prediction
          {exampleMix with exposure_time := 4 * exampleMix.exposure_time}
          0.95).prediction
        = 2 * (corrected_prediction.realistic_carbonation_prediction
            exampleMix 0.95).prediction ∧
      simple_prediction.predict_carbonation_depth
          {exampleMix with exposure_time := 4 * exampleMix.exposure_time}
        = 2 * simple_prediction.predict_carbonation_depth exampleMix := by
  have h : 0 < exampleMix.exposure_time := by norm_num [exampleMix]
  exact ⟨h, (claim_C3 exampleMix 0.95 h).1, (claim_C3 exampleMix 0.95 h).2⟩

/-- Claim C10: in the web_carbonation_app variant no call can ever produce
a successful prediction — the module-level statement at line 241
instantiates the undefined name `CarbonationPredictor` (the class actually
defined is `MLCarbonationPredictor`), and
`MLCarbonationPredictor.predict_carbonation_depth` calls a method
`_ml_predict_carbonation_depth` that is defined nowhere, so for every
input the except-branch is taken and the result has `success = False`. -/
theorem claim_C10 (p : Inputs) (model method : String) (conf : ℝ) :
    web_carbonation_app.module_level_predictor
        = Except.error "NameError: name 'CarbonationPredictor' is not defined" ∧
      (web_carbonation_app.predict_carbonation_depth p model method
          conf).success? = false :=
  ⟨rfl, rfl⟩

lemma pyInt_eval (x : ℝ) (n : ℤ) (h : x = n) : (pyInt x : ℝ) = x := by
  subst h
  unfold pyInt
  split_ifs <;> simp

lemma ratios_eval (p : Inputs) (h1 : p.cement = 400) (h2 : p.fly_ash = 0)
    (h3 : p.water = 160) (h4 : p.coarse_agg = 1000)
    (h5 : p.recycled_agg = 0) :
    w_c_ratio p = 0.4 ∧ ra_ratio p = 0 ∧ fa_ratio p = 0 := by
  unfold w_c_ratio ra_ratio fa_ratio binder_content total_agg
  rw [h1, h2, h3, h4, h5]
  norm_num

lemma stable_r2_XGB : stable_app.ml_performance_r2 "XGB" = 0.934 := by
  unfold stable_app.ml_performance_r2
  rw [if_pos rfl]

lemma stable_adjustment_XGB : stable_app.adjustment "XGB" = 1.0084 := by
  unfold stable_app.adjustment
  rw [stable_r2_XGB, if_pos (by norm_num)]
  norm_num

lemma stable_w_c_factor_one (p : Inputs) (h : w_c_ratio p = 0.4) :
    stable_app.w_c_factor p = 1 := by
  unfold stable_app.w_c_factor
  rw [show w_c_ratio (stable_app.params p) = w_c_ratio p from rfl, h,
    show (0.4 : ℝ) / 0.4 = 1 by norm_num, Real.one_rpow]

lemma stable_ra_factor_one (p : Inputs) (h : ra_ratio p = 0) :
    stable_app.ra_factor p = 1 := by
  unfold stable_app.ra_factor
  rw [show ra_ratio (stable_app.params p) = ra_ratio p from rfl, h]
  norm_num

lemma stable_strength_factor_one (p : Inputs)
    (h : p.compressive_strength = 35) : stable_app.strength_factor p = 1 := by
  unfold stable_app.strength_factor
  rw [show (stable_app.params p).compressive_strength
    = p.compressive_strength from rfl, h, if_pos (by norm_num : (0 : ℝ) < 35),
    show (35 : ℝ) / 35 = 1 by norm_num, Real.one_rpow]

lemma stable_fa_factor_one (p : Inputs) (h : fa_ratio p = 0) :
    stable_app.fa_factor p = 1 := by
  unfold stable_app.fa_factor
  rw [show fa_ratio (stable_app.params p) = fa_ratio p from rfl, h,
    show (1.0 : ℝ) - 0 * 0.25 = 1 by norm_num]
  exact max_eq_right (by norm_num)

lemma stable_co2_factor_one (p : Inputs)
    (h : p.carbon_concentration = 0.04) : stable_app.co2_factor p = 1 := by
  unfold stable_app.co2_factor
  rw [show (stable_app.params p).carbon_concentration
    = p.carbon_concentration from rfl, h,
    show (0.04 : ℝ) / 0.04 = 1 by norm_num, Real.one_rpow]

lemma stable_temp_factor_one (p : Inputs) (h : p.temperature = 20) :
    stable_app.temp_factor p = 1 := by
  unfold stable_app.temp_factor
  rw [show (stable_app.params p).temperature = p.temperature from rfl, h,
    show (0.0693 : ℝ) * (20 - 20) = 0 by norm_num, Real.exp_zero]

lemma stable_rh_factor_plateau (p : Inputs) (h : p.relative_humidity = 65) :
    stable_app.rh_factor p = 1.0 := by
  unfold stable_app.rh_factor
  rw [show (stable_app.params p).relative_humidity = p.relative_humidity
    from rfl, h, if_pos (by norm_num : (50 : ℝ) ≤ 65 ∧ (65 : ℝ) ≤ 70)]

lemma stable_time_factor_eq (p : Inputs) :
    stable_app.time_factor p
      = Real.sqrt ((pyInt p.exposure_time : ℝ) / 365.25) := rfl

lemma coldDry_temp_le (et : ℝ) :
    stable_app.temp_factor (coldDryMix et) ≤ 0.3 ∧
      0 < stable_app.temp_factor (coldDryMix et) := by
  have he : stable_app.temp_factor (coldDryMix et) = Real.exp (-1.386) := by
    unfold stable_app.temp_factor
    rw [show (stable_app.params (coldDryMix et)).temperature = (0 : ℝ)
      from rfl]
    norm_num
  constructor
  · rw [he]
    have hmul : Real.exp (-1.386) * Real.exp 1.386 = 1 := by
      rw [← Real.exp_add]
      norm_num
    have hlb : (1.2772 : ℝ) ^ (5 : ℕ) ≤ Real.exp 1.386 := by
      have h1 : Real.exp 1.386 = Real.exp 0.2772 ^ (5 : ℕ) := by
        rw [← Real.exp_nat_mul]
        norm_num
      have h2 : (1.2772 : ℝ) ≤ Real.exp 0.2772 := by
        have := Real.add_one_le_exp (0.2772 : ℝ)
        linarith
      rw [h1]
      exact pow_le_pow_left (by norm_num) h2 5
    have hlb' : (3.39 : ℝ) ≤ Real.exp 1.386 := by nlinarith
    nlinarith [Real.exp_pos (-(1.386 : ℝ)), Real.exp_pos (1.386 : ℝ)]
  · rw [he]
    exact Real.exp_pos _

lemma coldDry_rh (et : ℝ) : stable_app.rh_factor (coldDryMix et) = 0.5 := by
  unfold stable_app.rh_factor
  rw [show (stable_app.params (coldDryMix et)).relative_humidity = (0 : ℝ)
    from rfl, if_neg (by norm_num), show |(0 : ℝ) - 60| = 60 by norm_num,
    show Real.pi * 60 / 40 = Real.pi + Real.pi / 2 by ring, Real.cos_add,
    Real.cos_pi, Real.sin_pi, Real.cos_pi_div_two, Real.sin_pi_div_two]
  ring

lemma coldDry_fp_bounds (et : ℝ) (hn : (pyInt et : ℝ) = et)
    (hs : Real.sqrt (et / 365.25) ≤ 0.075) :
    0 ≤ stable_app.final_prediction (coldDryMix et) "XGB" ∧
      stable_app.final_prediction (coldDryMix et) "XGB" < 0.1 := by
  obtain ⟨hwc, hra, hfa⟩ :=
    ratios_eval (coldDryMix et) rfl rfl rfl rfl rfl
  have htf : stable_app.time_factor (coldDryMix et)
      = Real.sqrt (et / 365.25) := by
    rw [stable_time_factor_eq, show (coldDryMix et).exposure_time = et
      from rfl, hn]
  have htf0 : 0 ≤ Real.sqrt (et / 365.25) := Real.sqrt_nonneg _
  have hT := coldDry_temp_le et
  have hfp : stable_app.final_prediction (coldDryMix et) "XGB"
      = 4.2 * stable_app.temp_factor (coldDryMix et) * 0.5 *
          Real.sqrt (et / 365.25) * 1.0084 := by
    unfold stable_app.final_prediction stable_app.base_prediction
    rw [stable_w_c_factor_one _ hwc, stable_ra_factor_one _ hra,
      stable_strength_factor_one _ rfl, stable_fa_factor_one _ hfa,
      stable_co2_factor_one _ rfl, coldDry_rh, htf, stable_adjustment_XGB]
    ring
  rw [hfp]
  have hprod := mul_nonneg hT.2.le htf0
  constructor
  · nlinarith
  · nlinarith [hT.1, hT.2, htf0, hs]

lemma yearMix_fp_lb : 4 ≤ stable_app.final_prediction yearMix "XGB" := by
  obtain ⟨hwc, hra, hfa⟩ := ratios_eval yearMix rfl rfl rfl rfl rfl
  have htf : stable_app.time_factor yearMix
      = Real.sqrt (365 / 365.25) := by
    rw [stable_time_factor_eq, show yearMix.exposure_time = (365 : ℝ)
      from rfl, pyInt_eval (365 : ℝ) 365 (by norm_num)]
  have hsq : (0.99 : ℝ) ≤ Real.sqrt (365 / 365.25) :=
    (Real.le_sqrt (by norm_num) (by norm_num)).mpr (by norm_num)
  have hfp : stable_app.final_prediction yearMix "XGB"
      = 4.2 * Real.sqrt (365 / 365.25) * 1.0084 := by
    unfold stable_app.final_prediction stable_app.base_prediction
    rw [stable_w_c_factor_one _ hwc, stable_ra_factor_one _ hra,
      stable_strength_factor_one _ rfl, stable_fa_factor_one _ hfa,
      stable_co2_factor_one _ rfl, stable_temp_factor_one _ rfl,
      stable_rh_factor_plateau _ rfl, htf, stable_adjustment_XGB]
    ring
  rw [hfp]
  nlinarith

lemma sq_le_bound (x c d : ℝ) (h0 : 0 ≤ x) (h1 : x ≤ c) (h2 : c ^ 2 ≤ d) :
    x ^ 2 ≤ d := by nlinarith

lemma realistic_cv_le (p : Inputs) (hv : ValidInputs p) :
    realistic_uncertainty_model.cv_total p ≤ 0.51 := by
  obtain ⟨hce1, hce2, hfa1, hfa2, hw1, hw2, hca1, hca2, hra1, hra2, hwa1,
    hwa2, hfg1, hfg2, hsp1, hsp2, hcs1, hcs2, hcc1, hcc2, het1, het2, htp1,
    htp2, hrh1, hrh2⟩ := hv
  have hb : 0 ≤ realistic_uncertainty_model.cv_base p ∧
      realistic_uncertainty_model.cv_base p ≤ 0.25 := by
    unfold realistic_uncertainty_model.cv_base
    split_ifs <;> norm_num
  have hr0 := ra_ratio_nonneg p hca1 hra1
  have hr1 := ra_ratio_le_one p hca1
  have hra' : 0 ≤ realistic_uncertainty_model.cv_ra p ∧
      realistic_uncertainty_model.cv_ra p ≤ 0.06 := by
    unfold realistic_uncertainty_model.cv_ra
    constructor <;> linarith
  have habs1 : |p.temperature - 20| ≤ 20 :=
    abs_le.mpr ⟨by linarith, by linarith⟩
  have habs2 : |p.relative_humidity - 65| ≤ 65 :=
    abs_le.mpr ⟨by linarith, by linarith⟩
  have habs1' : 0 ≤ |p.temperature - 20| := abs_nonneg _
  have habs2' : 0 ≤ |p.relative_humidity - 65| := abs_nonneg _
  have he : 0 ≤ realistic_uncertainty_model.cv_env p ∧
      realistic_uncertainty_model.cv_env p ≤ 0.19 := by
    unfold realistic_uncertainty_model.cv_env
    constructor <;> linarith
  have htm : 0 ≤ realistic_uncertainty_model.cv_time p ∧
      realistic_uncertainty_model.cv_time p ≤ 0.02 := by
    unfold realistic_uncertainty_model.cv_time
    split_ifs <;> norm_num
  have hS : realistic_uncertainty_model.cv_base p ^ 2 +
      realistic_uncertainty_model.cv_ra p ^ 2 +
      realistic_uncertainty_model.cv_env p ^ 2 +
      realistic_uncertainty_model.cv_time p ^ 2 ≤ 0.2601 := by
    have h1 := sq_le_bound _ 0.25 0.0625 hb.1 hb.2 (by norm_num)
    have h2 := sq_le_bound _ 0.06 0.0036 hra'.1 hra'.2 (by norm_num)
    have h3 := sq_le_bound _ 0.19 0.0361 he.1 he.2 (by norm_num)
    have h4 := sq_le_bound _ 0.02 0.0004 htm.1 htm.2 (by norm_num)
    linarith
  calc realistic_uncertainty_model.cv_total p
      ≤ Real.sqrt 0.2601 := Real.sqrt_le_sqrt hS
    _ = 0.51 := by
        rw [show (0.2601 : ℝ) = 0.51 ^ 2 by norm_num,
          Real.sqrt_sq (by norm_num)]

lemma yearMix_uncertainty :
    stable_app.total_uncertainty yearMix "XGB" = 0.19278 := by
  obtain ⟨hwc, hra, hfa⟩ := ratios_eval yearMix rfl rfl rfl rfl rfl
  have hq : stable_app.quality_score yearMix = 41 / 120 := by
    unfold stable_app.quality_score
    dsimp only
    rw [show w_c_ratio (stable_app.params yearMix) = w_c_ratio yearMix
      from rfl, show ra_ratio (stable_app.params yearMix) = ra_ratio yearMix
      from rfl, show fa_ratio (stable_app.params yearMix) = fa_ratio yearMix
      from rfl, show (stable_app.params yearMix).compressive_strength
      = (35 : ℝ) from rfl, hwc, hra, hfa]
    norm_num [max_def, min_def]
  have hb : stable_app.base_uncertainty yearMix = 0.180 := by
    unfold stable_app.base_uncertainty
    rw [hq]
    norm_num
  unfold stable_app.total_uncertainty
  dsimp only
  rw [show (stable_app.params yearMix).carbon_concentration = (0.04 : ℝ)
    from rfl, show (stable_app.params yearMix).temperature = (20 : ℝ)
    from rfl, show (stable_app.params yearMix).relative_humidity = (65 : ℝ)
    from rfl, show (stable_app.params yearMix).exposure_time
    = (pyInt (365 : ℝ) : ℝ) from rfl, pyInt_eval (365 : ℝ) 365 (by norm_num),
    hb, show stable_app.model_factors "XGB" = 1.00 from by
      unfold stable_app.model_factors; rw [if_pos rfl]]
  norm_num [max_def, min_def]

/-- Claim C1 (amended): for every valid input record and every confidence
level, corrected_prediction returns
`upper bound ≥ point estimate ≥ lower bound ≥ 0` exactly as claimed; for
the StableCarbonationPredictor variant — whose lower bound is floored at
0.1 mm, not 0 — the point estimate is non-negative, the upper bound
dominates it and the lower bound is non-negative, but
`point estimate ≥ lower bound` only holds once the point estimate reaches
the 0.1 mm floor (these are the computed bounds of lines 151-156; the
returned dict rounds them to two decimals). -/
theorem claim_C1 (p : Inputs) (conf : ℝ) (model : String)
    (hv : ValidInputs p) :
    (0 ≤ (corrected_prediction.realistic_carbonation_prediction p
          conf).lower_bound ∧
      (corrected_prediction.realistic_carbonation_prediction p
          conf).lower_bound
        ≤ (corrected_prediction.realistic_carbonation_prediction p
            conf).prediction ∧
      (corrected_prediction.realistic_carbonation_prediction p
          conf).prediction
        ≤ (corrected_prediction.realistic_carbonation_prediction p
            conf).upper_bound) ∧
    0 ≤ stable_app.lower_bound p model conf ∧
    0 ≤ stable_app.final_prediction p model ∧
    stable_app.final_prediction p model ≤ stable_app.upper_bound p model conf ∧
    (0.1 ≤ stable_app.final_prediction p model →
      stable_app.lower_bound p model conf
        ≤ stable_app.final_prediction p model) := by
  obtain ⟨hce1, hce2, hfa1, hfa2, hw1, hw2, hca1, hca2, hra1, hra2, hwa1,
    hwa2, hfg1, hfg2, hsp1, hsp2, hcs1, hcs2, hcc1, hcc2, het1, het2, htp1,
    htp2, hrh1, hrh2⟩ := hv
  have hce0 : (0 : ℝ) ≤ p.cement := by linarith
  have hw0 : (0 : ℝ) ≤ p.water := by linarith
  have hd : 0 ≤ corrected_prediction.carbonation_depth p :=
    corrected_prediction.carbonation_depth_nonneg p hce0 hfa1 hca1 hra1 htp1
  have hm : 0 ≤ corrected_prediction.margin p conf :=
    corrected_prediction.margin_nonneg_corr p conf hd
  have hf : 0 ≤ stable_app.final_prediction p model :=
    stable_app.final_prediction_nonneg p hw0 hca1 hra1 hcc1 model
  have hsm : 0 ≤ stable_app.margin p model conf :=
    stable_app.margin_nonneg_stab p model conf hf
  refine ⟨⟨?_, ?_, ?_⟩, ?_, hf, ?_, fun h01 => ?_⟩
  · show (0 : ℝ) ≤ max 0 (corrected_prediction.carbonation_depth p -
      corrected_prediction.margin p conf)
    exact le_max_left 0 _
  · show max 0 (corrected_prediction.carbonation_depth p -
        corrected_prediction.margin p conf)
      ≤ corrected_prediction.carbonation_depth p
    exact max_le hd (by linarith)
  · show corrected_prediction.carbonation_depth p
      ≤ corrected_prediction.carbonation_depth p +
          corrected_prediction.margin p conf
    linarith
  · exact le_trans (by norm_num)
      (le_max_left (0.1 : ℝ) (stable_app.final_prediction p model -
        stable_app.margin p model conf))
  · show stable_app.final_prediction p model
      ≤ stable_app.final_prediction p model +
          stable_app.margin p model conf
    linarith
  · exact max_le h01 (by linarith)

/-- Claim C1, witnessed at a valid one-year mix whose stable_app point
estimate clears the 0.1 mm floor. -/
theorem claim_C1_witness :
    ValidInputs yearMix ∧
      0.1 ≤ stable_app.final_prediction yearMix "XGB" ∧
      stable_app.lower_bound yearMix "XGB" 0.95
        ≤ stable_app.final_prediction yearMix "XGB" ∧
      0 ≤ (corrected_prediction.realistic_carbonation_prediction yearMix
          0.95).lower_bound := by
  have hv : ValidInputs yearMix := by norm_num [ValidInputs, yearMix]
  have h01 : (0.1 : ℝ) ≤ stable_app.final_prediction yearMix "XGB" :=
    le_trans (by norm_num) yearMix_fp_lb
  exact ⟨hv, h01, (claim_C1 yearMix 0.95 "XGB" hv).2.2.2.2 h01,
    (claim_C1 yearMix 0.95 "XGB" hv).1.1⟩

/-- Claim C1 as stated is false for the StableCarbonationPredictor
variant: at the valid cold-dry one-day mix its point estimate is below
0.1 mm, so the floored lower bound `max(0.1, point - margin)` exceeds the
point estimate and `point estimate ≥ lower bound` fails. -/
theorem claim_C1_cex :
    ValidInputs (coldDryMix 1) ∧
      ¬ stable_app.lower_bound (coldDryMix 1) "XGB" 0.95
          ≤ stable_app.final_prediction (coldDryMix 1) "XGB" := by
  have hb := coldDry_fp_bounds 1 (pyInt_eval 1 1 (by norm_num))
    (le_of_lt ((Real.sqrt_lt' (by norm_num)).mpr (by norm_num)))
  refine ⟨by norm_num [ValidInputs, coldDryMix], not_le.mpr ?_⟩
  exact lt_of_lt_of_le hb.2
    (le_max_left (0.1 : ℝ) (stable_app.final_prediction (coldDryMix 1)
      "XGB" - stable_app.margin (coldDryMix 1) "XGB" 0.95))

/-- Claim C6 (amended): in realistic_uncertainty_model the interval is
symmetric about the point estimate whenever the zero floor is not engaged
(point − margin ≥ 0), exactly as claimed; in stable_app, whose floor sits
at 0.1 rather than 0, symmetry of the computed bounds holds whenever
point − margin ≥ 0.1. -/
theorem claim_C6 (p : Inputs) (conf : ℝ) (model : String) :
    (0 ≤ (realistic_uncertainty_model.realistic_uncertainty_prediction p
          conf).prediction - realistic_uncertainty_model.margin p conf →
      (realistic_uncertainty_model.realistic_uncertainty_prediction p
          conf).upper_bound
          - (realistic_uncertainty_model.realistic_uncertainty_prediction p
              conf).prediction
        = (realistic_uncertainty_model.realistic_uncertainty_prediction p
            conf).prediction
          - (realistic_uncertainty_model.realistic_uncertainty_prediction p
              conf).lower_bound) ∧
    (0.1 ≤ stable_app.final_prediction p model -
        stable_app.margin p model conf →
      stable_app.upper_bound p model conf - stable_app.final_prediction p model
        = stable_app.final_prediction p model -
            stable_app.lower_bound p model conf) := by
  constructor
  · intro h
    show realistic_uncertainty_model.carbonation_depth p +
        realistic_uncertainty_model.margin p conf -
        realistic_uncertainty_model.carbonation_depth p
      = realistic_uncertainty_model.carbonation_depth p -
          max 0 (realistic_uncertainty_model.carbonation_depth p -
            realistic_uncertainty_model.margin p conf)
    have h' : 0 ≤ realistic_uncertainty_model.carbonation_depth p -
        realistic_uncertainty_model.margin p conf := h
    rw [max_eq_right h']
    ring
  · intro h
    unfold stable_app.upper_bound stable_app.lower_bound
    rw [max_eq_right h]
    ring

/-- Claim C6, witnessed at the example mix (realistic_uncertainty_model)
and the one-year mix (stable_app), where neither floor is engaged. -/
theorem claim_C6_witness :
    (0 ≤ (realistic_uncertainty_model.realistic_uncertainty_prediction
          exampleMix 0.95).prediction -
        realistic_uncertainty_model.margin exampleMix 0.95 ∧
      (realistic_uncertainty_model.realistic_uncertainty_prediction
          exampleMix 0.95).upper_bound
          - (realistic_uncertainty_model.realistic_uncertainty_prediction
              exampleMix 0.95).prediction
        = (realistic_uncertainty_model.realistic_uncertainty_prediction
            exampleMix 0.95).prediction
          - (realistic_uncertainty_model.realistic_uncertainty_prediction
              exampleMix 0.95).lower_bound) ∧
    (0.1 ≤ stable_app.final_prediction yearMix "XGB" -
        stable_app.margin yearMix "XGB" 0.95 ∧
      stable_app.upper_bound yearMix "XGB" 0.95 -
          stable_app.final_prediction yearMix "XGB"
        = stable_app.final_prediction yearMix "XGB" -
            stable_app.lower_bound yearMix "XGB" 0.95) := by
  have hz : z_scores 0.95 = 1.96 := by norm_num [z_scores]
  have hd0 : 0 ≤ realistic_uncertainty_model.carbonation_depth exampleMix := by
    unfold realistic_uncertainty_model.carbonation_depth
      realistic_uncertainty_model.k_effective
    have h1 := realistic_uncertainty_model.k_base_pos_real (w_c_ratio exampleMix)
    have h2 := realistic_uncertainty_model.ra_factor_nonneg_real
      (ra_ratio exampleMix)
      (ra_ratio_nonneg exampleMix (by norm_num [exampleMix])
        (by norm_num [exampleMix]))
    have h3 := realistic_uncertainty_model.strength_factor_pos_real
      exampleMix.compressive_strength
    have h4 := realistic_uncertainty_model.fa_factor_nonneg_real exampleMix
      (fa_ratio_le_one exampleMix (by norm_num [exampleMix]))
    have h5 := realistic_uncertainty_model.temp_factor_nonneg_real exampleMix
      (by norm_num [exampleMix])
    have h6 := realistic_uncertainty_model.rh_factor_nonneg_real exampleMix
    have h7 := realistic_uncertainty_model.co2_factor_nonneg_real exampleMix
    have h8 := Real.sqrt_nonneg
      (realistic_uncertainty_model.time_years exampleMix)
    exact mul_nonneg (mul_nonneg (mul_nonneg (mul_nonneg (mul_nonneg
      (mul_nonneg (mul_nonneg h1.le h2) h3.le) h4) h5) h6) h7) h8
  have hcv : realistic_uncertainty_model.cv_total exampleMix ≤ 0.51 :=
    realistic_cv_le exampleMix (by norm_num [ValidInputs, exampleMix])
  have hcv0 : 0 ≤ realistic_uncertainty_model.cv_total exampleMix :=
    Real.sqrt_nonneg _
  have h1 : 0 ≤ (realistic_uncertainty_model.realistic_uncertainty_prediction
      exampleMix 0.95).prediction -
      realistic_uncertainty_model.margin exampleMix 0.95 := by
    show 0 ≤ realistic_uncertainty_model.carbonation_depth exampleMix -
      realistic_uncertainty_model.margin exampleMix 0.95
    unfold realistic_uncertainty_model.margin
    rw [hz]
    nlinarith [mul_nonneg hd0 (by linarith :
      (0 : ℝ) ≤ 0.51 - realistic_uncertainty_model.cv_total exampleMix)]
  have h2 : (0.1 : ℝ) ≤ stable_app.final_prediction yearMix "XGB" -
      stable_app.margin yearMix "XGB" 0.95 := by
    unfold stable_app.margin
    rw [hz, yearMix_uncertainty]
    linarith [yearMix_fp_lb]
  exact ⟨⟨h1, (claim_C6 exampleMix 0.95 "XGB").1 h1⟩,
    ⟨h2, (claim_C6 yearMix 0.95 "XGB").2 h2⟩⟩

/-- Claim C6 as stated is false for the stable_app variant: at the valid
cold-dry two-day mix the point estimate minus the margin is non-negative
(the claim's reading of "floor not engaged"), yet the 0.1 mm floor is in
fact engaged and the interval is not symmetric about the point
estimate. -/
theorem claim_C6_cex :
    ValidInputs (coldDryMix 2) ∧
      0 ≤ stable_app.final_prediction (coldDryMix 2) "XGB" -
          stable_app.margin (coldDryMix 2) "XGB" 0.95 ∧
      stable_app.upper_bound (coldDryMix 2) "XGB" 0.95 -
          stable_app.final_prediction (coldDryMix 2) "XGB"
        ≠ stable_app.final_prediction (coldDryMix 2) "XGB" -
            stable_app.lower_bound (coldDryMix 2) "XGB" 0.95 := by
  have hb := coldDry_fp_bounds 2 (pyInt_eval 2 2 (by norm_num))
    (le_of_lt ((Real.sqrt_lt' (by norm_num)).mpr (by norm_num)))
  have hu := stable_app.total_uncertainty_mem (coldDryMix 2) "XGB"
  have hm0 : 0 ≤ stable_app.margin (coldDryMix 2) "XGB" 0.95 :=
    stable_app.margin_nonneg_stab _ _ _ hb.1
  have hz : z_scores 0.95 = 1.96 := by norm_num [z_scores]
  refine ⟨by norm_num [ValidInputs, coldDryMix], ?_, ?_⟩
  · unfold stable_app.margin
    rw [hz]
    nlinarith [mul_nonneg hb.1 (by linarith [hu.2] : (0 : ℝ) ≤ 0.5 -
      stable_app.total_uncertainty (coldDryMix 2) "XGB")]
  · have hlow : stable_app.lower_bound (coldDryMix 2) "XGB" 0.95 = 0.1 := by
      unfold stable_app.lower_bound
      exact max_eq_left (by linarith [hb.2, hm0])
    rw [hlow]
    unfold stable_app.upper_bound
    intro heq
    nlinarith [hb.2, hm0]

end Carbonation
